import Mathlib

/-!
Verification development for the Telemetry_App vehicle-fleet simulator.

The simulation core (src/data_generator) is shallowly embedded here:
Python floats are modelled as rationals (ℚ), the global `random` module as an
explicit stream of unit draws (`RandGen`, a list of rationals, each draw
expected in [0,1)), wall-clock timestamps as rationals, and fallible calls as
`Except`.  Each definition mirrors the Python function of the same name.
-/

namespace TelemetryApp

/-- Model of Python's built-in `round` tie-breaking: round half to even,
applied to an exact rational. -/
def roundHalfEven (x : ℚ) : ℤ :=
  let f := ⌊x⌋
  let r := x - (f : ℚ)
  if r < 1/2 then f
  else if 1/2 < r then f + 1
  else if f % 2 = 0 then f else f + 1

/-- Model of Python's `round(x, d)` on an exact rational. -/
def pyRound (x : ℚ) (d : ℕ) : ℚ :=
  (roundHalfEven (x * (10 : ℚ) ^ d) : ℚ) / (10 : ℚ) ^ d

/-- Python's builtin `min` on two numbers (kernel-reducible form). -/
def pyMin (a b : ℚ) : ℚ := if a ≤ b then a else b

/-- Python's builtin `max` on two numbers (kernel-reducible form). -/
def pyMax (a b : ℚ) : ℚ := if a ≤ b then b else a

lemma pyMin_eq (a b : ℚ) : pyMin a b = min a b := (min_def a b).symm

lemma pyMax_eq (a b : ℚ) : pyMax a b = max a b := (max_def a b).symm

/-- Model of Python's `int(x)` (truncation toward zero) on a rational. -/
def pyInt (x : ℚ) : ℤ :=
  if 0 ≤ x then ⌊x⌋ else -⌊-x⌋

/-- The random source: the stream of unit draws produced by Python's `random`
module, consumed left to right.  `random.random()` yields values in [0,1). -/
abbrev RandGen := List ℚ

/-- Model of `random.random()`: consume one unit draw. -/
def nextRand (g : RandGen) : ℚ × RandGen := (g.headD 0, g.tail)

/-- Model of `random.uniform(a, b) = a + (b-a)*random()`. -/
def nextUniform (a b : ℚ) (g : RandGen) : ℚ × RandGen :=
  let (u, g') := nextRand g
  (a + (b - a) * u, g')

/-- Model of `random.randint(a, b)`: a uniform integer in [a, b] derived from
one unit draw. -/
def nextRandint (a b : ℤ) (g : RandGen) : ℤ × RandGen :=
  let (u, g') := nextRand g
  (a + ⌊((b - a + 1 : ℤ) : ℚ) * u⌋, g')

/-- Well-formedness of the random source: every draw lies in [0,1), as
guaranteed by `random.random()`. -/
def GoodGen (g : RandGen) : Prop := ∀ u ∈ g, 0 ≤ u ∧ u < 1

lemma GoodGen.tail {g : RandGen} (h : GoodGen g) : GoodGen g.tail := by
  intro u hu
  exact h u (List.mem_of_mem_tail hu)

lemma GoodGen.headD {g : RandGen} (h : GoodGen g) (hne : g ≠ []) :
    0 ≤ g.headD 0 ∧ g.headD 0 < 1 := by
  cases g with
  | nil => exact absurd rfl hne
  | cons u g' => exact h u (List.mem_cons_self u g')

/-! ### Data model (src/data_generator/models.py) -/

inductive VehicleState where
  | DRIVING
  | IDLING
  | PARKED
  | REFUELING
deriving DecidableEq

structure BehavioralProfile where
  p_stop_at_node : ℚ
  p_theft_given_stop : ℚ
  theft_pct_min : ℚ
  theft_pct_max : ℚ
deriving DecidableEq

/-- The dataclass defaults of `BehavioralProfile`. -/
instance : Inhabited BehavioralProfile := ⟨⟨1/10, 1/20, 1, 15⟩⟩

structure TelemetryReading where
  vehicle_id : String
  timestamp : ℚ
  latitude : ℚ
  longitude : ℚ
  speed_kph : ℚ
  fuel_percentage : ℚ
deriving DecidableEq

/-- The `details` payload dictionary of a fuel-theft anomaly. -/
structure AnomalyDetails where
  liters_stolen : ℚ
  fuel_pct_before : ℚ
  fuel_pct_after : ℚ
  theft_percentage : ℚ
deriving DecidableEq

structure AnomalyEvent where
  vehicle_id : String
  timestamp : ℚ
  event_type : String
  details : AnomalyDetails
deriving DecidableEq

/-! ### VehicleAgent (src/data_generator/vehicle.py) -/

/-- Mutable state of a `VehicleAgent` (the `world` reference is held by the
orchestrator embedding instead). -/
structure VehicleAgent where
  vehicle_id : String
  behavioral_profile : BehavioralProfile
  tank_capacity_liters : ℚ
  mileage_kmpl : ℚ
  fuel_liters : ℚ
  refueling_threshold : ℚ
  state : VehicleState
  speed_kph : ℚ
  state_timer_seconds : ℤ
  route : List (ℚ × ℚ)
  current_edge_index : ℕ
  progress_on_edge : ℚ
deriving DecidableEq

def EDGE_LENGTH_KM : ℚ := 1
def IDLE_CONSUMPTION_LPH : ℚ := 4/5
def DEFAULT_SPEED_KPH : ℚ := 60
def POSITION_TOLERANCE : ℚ := 99999/100000

/-- `VehicleAgent.__init__` with the constructor's default configuration
(tank 500 L, 4 km/L, 20% refuel threshold): full tank, parked. -/
def mkVehicle (vehicle_id : String) (profile : BehavioralProfile) : VehicleAgent :=
  { vehicle_id := vehicle_id
    behavioral_profile := profile
    tank_capacity_liters := 500
    mileage_kmpl := 4
    fuel_liters := 500
    refueling_threshold := 20
    state := .PARKED
    speed_kph := 0
    state_timer_seconds := 0
    route := []
    current_edge_index := 0
    progress_on_edge := 0 }

def fuel_percentage (a : VehicleAgent) : ℚ :=
  a.fuel_liters / a.tank_capacity_liters * 100

def needs_refueling (a : VehicleAgent) : Prop :=
  fuel_percentage a ≤ a.refueling_threshold

instance (a : VehicleAgent) : Decidable (needs_refueling a) := by
  unfold needs_refueling; infer_instance

/-- `VehicleAgent.assign_new_trip`. -/
def assign_new_trip (a : VehicleAgent) (route : List (ℚ × ℚ)) (speed_kph : ℚ) :
    VehicleAgent :=
  if route.length < 2 then
    { a with state := .PARKED, speed_kph := 0, route := [] }
  else
    { a with route := route, current_edge_index := 0, progress_on_edge := 0,
             speed_kph := speed_kph, state := .DRIVING, state_timer_seconds := 0 }

/-- `VehicleAgent.refuel`. -/
def refuel (a : VehicleAgent) : VehicleAgent :=
  { a with fuel_liters := a.tank_capacity_liters, state := .PARKED, speed_kph := 0 }

def has_active_route (a : VehicleAgent) : Prop :=
  2 ≤ a.route.length ∧ (a.current_edge_index : ℤ) < (a.route.length : ℤ) - 1

instance (a : VehicleAgent) : Decidable (has_active_route a) := by
  unfold has_active_route; infer_instance

def has_reached_node (a : VehicleAgent) : Prop :=
  POSITION_TOLERANCE ≤ a.progress_on_edge

instance (a : VehicleAgent) : Decidable (has_reached_node a) := by
  unfold has_reached_node; infer_instance

def is_at_final_destination (a : VehicleAgent) : Prop :=
  (a.route.length : ℤ) - 2 ≤ (a.current_edge_index : ℤ)

instance (a : VehicleAgent) : Decidable (is_at_final_destination a) := by
  unfold is_at_final_destination; infer_instance

def resume_driving (a : VehicleAgent) : VehicleAgent :=
  { a with state := .DRIVING, speed_kph := DEFAULT_SPEED_KPH }

def complete_trip (a : VehicleAgent) : VehicleAgent :=
  { a with state := .PARKED, speed_kph := 0 }

def stop_vehicle (a : VehicleAgent) : VehicleAgent :=
  { a with state := .PARKED, speed_kph := 0 }

def advance_to_next_edge (a : VehicleAgent) : VehicleAgent :=
  { a with current_edge_index := a.current_edge_index + 1, progress_on_edge := 0 }

/-- Step 1 of `tick`: the idle countdown. -/
def update_idle_timer (a : VehicleAgent) (delta_time_seconds : ℤ) : VehicleAgent :=
  if a.state = .IDLING ∧ 0 < a.state_timer_seconds then
    let timer := max 0 (a.state_timer_seconds - delta_time_seconds)
    let a' := { a with state_timer_seconds := timer }
    if timer ≤ 0 then resume_driving a' else a'
  else a

/-- `VehicleAgent._apply_driving_physics`: returns the updated agent and the
distance commanded this tick (used for fuel accounting). -/
def apply_driving_physics (a : VehicleAgent) (delta_time_seconds : ℤ) :
    VehicleAgent × ℚ :=
  if ¬ has_active_route a then (stop_vehicle a, 0)
  else
    let hours : ℚ := (delta_time_seconds : ℚ) / 3600
    let distance_km := a.speed_kph * hours
    let progress := a.progress_on_edge + distance_km / EDGE_LENGTH_KM
    ({ a with progress_on_edge := pyMin progress 1 }, distance_km)

/-- `VehicleAgent._apply_stationary_physics`. -/
def apply_stationary_physics (a : VehicleAgent) : VehicleAgent :=
  { a with speed_kph := 0 }

/-- `VehicleAgent._update_fuel_consumption`. -/
def update_fuel_consumption (a : VehicleAgent) (distance_km : ℚ)
    (delta_time_seconds : ℤ) : VehicleAgent :=
  let liters_consumed : ℚ :=
    if a.state = .DRIVING ∧ 0 < distance_km then distance_km / a.mileage_kmpl
    else if a.state = .IDLING then
      IDLE_CONSUMPTION_LPH * ((delta_time_seconds : ℚ) / 3600)
    else 0
  { a with fuel_liters := pyMax 0 (a.fuel_liters - liters_consumed) }

/-- `VehicleAgent._perform_fuel_theft`. -/
def perform_fuel_theft (a : VehicleAgent) (timestamp : ℚ) (g : RandGen) :
    VehicleAgent × AnomalyEvent × RandGen :=
  let (theft_pct, g1) :=
    nextUniform a.behavioral_profile.theft_pct_min a.behavioral_profile.theft_pct_max g
  let liters_stolen := theft_pct / 100 * a.tank_capacity_liters
  let fuel_before := fuel_percentage a
  let a' := { a with fuel_liters := pyMax 0 (a.fuel_liters - liters_stolen) }
  let fuel_after := fuel_percentage a'
  (a',
   { vehicle_id := a.vehicle_id
     timestamp := timestamp
     event_type := "FUEL_THEFT"
     details :=
       { liters_stolen := pyRound liters_stolen 2
         fuel_pct_before := pyRound fuel_before 2
         fuel_pct_after := pyRound fuel_after 2
         theft_percentage := pyRound theft_pct 2 } },
   g1)

/-- `VehicleAgent._initiate_stop`: consumes one draw for the idle timer, then
one draw for the theft probability check (so theft is evaluated exactly once
per stop), then possibly one more inside `perform_fuel_theft`. -/
def initiate_stop (a : VehicleAgent) (timestamp : ℚ) (g : RandGen) :
    VehicleAgent × Option AnomalyEvent × RandGen :=
  let (timer, g1) := nextRandint 120 600 g
  let a' := { a with state := .IDLING, speed_kph := 0, state_timer_seconds := timer }
  let (u, g2) := nextRand g1
  if u < a.behavioral_profile.p_theft_given_stop then
    let (a'', ev, g3) := perform_fuel_theft a' timestamp g2
    (a'', some ev, g3)
  else (a', none, g2)

/-- `VehicleAgent._handle_intermediate_arrival`: advances to the next edge
BEFORE sampling the stop probability. -/
def handle_intermediate_arrival (a : VehicleAgent) (timestamp : ℚ) (g : RandGen) :
    VehicleAgent × Option AnomalyEvent × RandGen :=
  let a1 := advance_to_next_edge a
  let (u, g1) := nextRand g
  if u < a.behavioral_profile.p_stop_at_node then initiate_stop a1 timestamp g1
  else (a1, none, g1)

/-- `VehicleAgent._check_and_handle_arrivals`. -/
def check_and_handle_arrivals (a : VehicleAgent) (timestamp : ℚ) (g : RandGen) :
    VehicleAgent × Option AnomalyEvent × RandGen :=
  if ¬ has_reached_node a then (a, none, g)
  else if is_at_final_destination a then (complete_trip a, none, g)
  else handle_intermediate_arrival a timestamp g

/-- `VehicleAgent._calculate_coordinates`.  Note: the source returns the raw
stored pair (`self.route[-1]`) in the route-end branch, but a `(lat, lon)`
pair in the interpolation branch; the embedding reproduces this as is. -/
def calculate_coordinates (a : VehicleAgent) : ℚ × ℚ :=
  if a.route = [] ∨ (a.route.length : ℤ) - 1 ≤ (a.current_edge_index : ℤ) then
    match a.route.getLast? with
    | some p => p
    | none => (0, 0)
  else
    let start_node := a.route.getD a.current_edge_index (0, 0)
    let end_node := a.route.getD (a.current_edge_index + 1) (0, 0)
    let lon0 := start_node.1
    let lat0 := start_node.2
    let lon1 := end_node.1
    let lat1 := end_node.2
    let progress := pyMin a.progress_on_edge 1
    (lat0 + progress * (lat1 - lat0), lon0 + progress * (lon1 - lon0))

/-- `VehicleAgent._create_telemetry_reading` (timestamps kept as rationals). -/
def create_telemetry_reading (a : VehicleAgent) (timestamp : ℚ) : TelemetryReading :=
  let c := calculate_coordinates a
  { vehicle_id := a.vehicle_id
    timestamp := timestamp
    latitude := pyRound c.1 6
    longitude := pyRound c.2 6
    speed_kph := pyRound a.speed_kph 2
    fuel_percentage := pyRound (fuel_percentage a) 2 }

/-- Step 2 of `tick`: physics dispatch on the current state (Driving moves;
Idling and Parked force speed 0; Refueling is untouched). -/
def tick_physics (a : VehicleAgent) (delta_time_seconds : ℤ) : VehicleAgent × ℚ :=
  if a.state = .DRIVING then apply_driving_physics a delta_time_seconds
  else if a.state = .IDLING ∨ a.state = .PARKED then (apply_stationary_physics a, 0)
  else (a, 0)

/-- Step 4 of `tick`: arrival handling happens only while Driving. -/
def tick_arrivals (a : VehicleAgent) (timestamp : ℚ) (g : RandGen) :
    VehicleAgent × Option AnomalyEvent × RandGen :=
  if a.state = .DRIVING then check_and_handle_arrivals a timestamp g
  else (a, none, g)

/-- `VehicleAgent.tick`: the per-tick algorithm.  The `delta_time_seconds ≤ 0`
validation precedes every state mutation in the source, so the error branch
returns before any state change. -/
def tick (a : VehicleAgent) (timestamp : ℚ) (delta_time_seconds : ℤ) (g : RandGen) :
    Except String (VehicleAgent × TelemetryReading × Option AnomalyEvent × RandGen) :=
  if delta_time_seconds ≤ 0 then .error "delta_time_seconds must be positive"
  else
    let a1 := update_idle_timer a delta_time_seconds
    let p := tick_physics a1 delta_time_seconds
    let a3 := update_fuel_consumption p.1 p.2 delta_time_seconds
    let q := tick_arrivals a3 timestamp g
    .ok (q.1, create_telemetry_reading q.1 timestamp, q.2.1, q.2.2)

/-- A `tick` call as observed by a caller that catches the exception: on a
`ValueError` the vehicle object is unchanged and no reading is produced. -/
def tick_caught (a : VehicleAgent) (timestamp : ℚ) (delta_time_seconds : ℤ)
    (g : RandGen) :
    VehicleAgent × Option (TelemetryReading × Option AnomalyEvent) × RandGen :=
  match tick a timestamp delta_time_seconds g with
  | .ok (a', rd, ev, g') => (a', some (rd, ev), g')
  | .error _ => (a, none, g)

/-! ### GridWorld (src/data_generator/world.py)

Grid nodes are coordinate pairs; they are embedded as rational pairs so that
they can flow directly into `VehicleAgent.route`.  The `networkx` shortest-path
routine is an external library call; the embedding takes it as an explicit
function parameter `sp` of the world. -/

abbrev Node := ℚ × ℚ

structure GridWorld where
  width : ℤ
  height : ℤ
  nodes : List Node
  refueling_stations : List Node
  /-- Model of `nx.shortest_path(graph, a, b)` over the world's grid graph. -/
  sp : Node → Node → List Node

/-- Model of `random.sample(nodes, 2)`: two distinct uniform indices derived
from two unit draws (the second index drawn over the remaining population). -/
def sampleTwo (nodes : List Node) (g : RandGen) : Node × Node × RandGen :=
  let (u1, g1) := nextRand g
  let (u2, g2) := nextRand g1
  let n := nodes.length
  let i := (⌊u1 * (n : ℚ)⌋).toNat
  let j0 := (⌊u2 * ((n : ℚ) - 1)⌋).toNat
  let j := if i ≤ j0 then j0 + 1 else j0
  (nodes.getD i (0, 0), nodes.getD j (0, 0), g2)

/-- The sequence of candidate routes examined by `get_random_route`'s retry
loop: one shortest path per sampling attempt. -/
def route_candidates (w : GridWorld) : ℕ → RandGen → List (List Node)
  | 0, _ => []
  | n + 1, g =>
    let s := sampleTwo w.nodes g
    w.sp s.1 s.2.1 :: route_candidates w n s.2.2

/-- The bounded retry loop of `GridWorld.get_random_route`. -/
def get_random_route_loop (w : GridWorld) (min_distance : ℕ) :
    ℕ → RandGen → Option (List Node) × RandGen
  | 0, g => (none, g)
  | n + 1, g =>
    let s := sampleTwo w.nodes g
    let route := w.sp s.1 s.2.1
    if min_distance ≤ route.length then (some route, s.2.2)
    else get_random_route_loop w min_distance n s.2.2

/-- `GridWorld.get_random_route`: up to 10 sampling attempts. -/
def get_random_route (w : GridWorld) (min_distance : ℕ) (g : RandGen) :
    Option (List Node) × RandGen :=
  get_random_route_loop w min_distance 10 g

/-- First element of a list minimizing a key (Python's `min(..., key=...)`,
which keeps the earliest minimum). -/
def argminFirst (key : Node → ℕ) : List Node → Option Node
  | [] => none
  | x :: xs =>
    match argminFirst key xs with
    | none => some x
    | some y => if key y < key x then some y else some x

/-- `GridWorld.find_nearest_refueling_station`: distances are modelled through
the same shortest-path routine (`len(path) - 1` edges). -/
def find_nearest_refueling_station (w : GridWorld) (start_node : Node) :
    Except String (Node × List Node) :=
  match argminFirst (fun s => (w.sp start_node s).length) w.refueling_stations with
  | none => .error "No refueling stations exist in this world."
  | some closest_station => .ok (closest_station, w.sp start_node closest_station)

/-! ### SimulationEngine (src/data_generator/core/simulation_engine.py) -/

/-- Zero-padding of `f"{n:03d}"`. -/
def pad3 (n : ℕ) : String :=
  if n < 10 then "00" ++ toString n
  else if n < 100 then "0" ++ toString n
  else toString n

/-- The vehicle id `f"V-{profile_name.upper()}-{i+1:03d}"`. -/
def mkVehicleId (profile_name : String) (i : ℕ) : String :=
  "V-" ++ profile_name.toUpper ++ "-" ++ pad3 (i + 1)

/-- `SimulationEngine.create_vehicle_fleet`; `profiles` is the insertion-ordered
name → profile dictionary. -/
def create_vehicle_fleet (num_vehicles : ℤ)
    (profiles : List (String × BehavioralProfile)) :
    Except String (List VehicleAgent) :=
  if num_vehicles ≤ 0 then .error "Number of vehicles must be positive"
  else if profiles = [] then .error "At least one behavioral profile must be provided"
  else
    .ok ((List.range num_vehicles.toNat).map (fun i =>
      let p := profiles.getD (i % profiles.length) ("", default)
      mkVehicle (mkVehicleId p.1 i) p.2))

/-- `SimulationEngine._assign_refueling_trip` (exceptions from an empty
station list are caught and reported as `false`). -/
def assign_refueling_trip (w : GridWorld) (a : VehicleAgent) (g : RandGen) :
    VehicleAgent × Bool × RandGen :=
  let pg : Node × RandGen :=
    match a.route.getLast? with
    | some p => (p, g)
    | none =>
      let (u, g') := nextRand g
      (w.nodes.getD (⌊u * (w.nodes.length : ℚ)⌋).toNat (0, 0), g')
  match find_nearest_refueling_station w pg.1 with
  | .error _ => (a, false, pg.2)
  | .ok (_, route_to_station) =>
    if 2 ≤ route_to_station.length then
      (assign_new_trip a route_to_station 60, true, pg.2)
    else (a, false, pg.2)

/-- The bounded attempt loop of `SimulationEngine._assign_random_trip`. -/
def assign_random_trip_loop (w : GridWorld) (a : VehicleAgent)
    (max_fuel_range_km : ℚ) : ℕ → RandGen → VehicleAgent × Bool × RandGen
  | 0, g => (a, false, g)
  | n + 1, g =>
    let min_distance := min 5 (pyInt (max_fuel_range_km * (1/10)))
    let r := get_random_route w min_distance.toNat g
    match r.1 with
    | none => assign_random_trip_loop w a max_fuel_range_km n r.2
    | some random_route =>
      let route_distance_km := (random_route.length : ℤ) - 1
      if (route_distance_km : ℚ) ≤ max_fuel_range_km then
        (assign_new_trip a random_route 60, true, r.2)
      else assign_random_trip_loop w a max_fuel_range_km n r.2

/-- `SimulationEngine._assign_random_trip`: up to 20 attempts within the safe
fuel range `0.9 * fuel * mileage`. -/
def assign_random_trip (w : GridWorld) (a : VehicleAgent) (g : RandGen) :
    VehicleAgent × Bool × RandGen :=
  assign_random_trip_loop w a (a.fuel_liters * a.mileage_kmpl * (9/10)) 20 g

/-- `SimulationEngine._manage_vehicle_lifecycle`. -/
def manage_vehicle_lifecycle (w : GridWorld) (a : VehicleAgent) (g : RandGen) :
    VehicleAgent × RandGen :=
  if a.state ≠ .PARKED then (a, g)
  else if needs_refueling a then
    let r := assign_refueling_trip w a g
    (r.1, r.2.2)
  else
    let r := assign_random_trip w a g
    (r.1, r.2.2)

/-- Orchestrator state that determines the produced logs: vehicles, random
source, telemetry buffer, the two append-only logs, the record of batch-sink
calls (payload and reported success), the record of anomaly-sink calls, the
stream of batch-sink outcomes, and the simulated clock. -/
structure SimCore where
  vehicles : List VehicleAgent
  gen : RandGen
  telemetry_buffer : List TelemetryReading
  telemetry_log : List TelemetryReading
  anomaly_log : List AnomalyEvent
  sent_batches : List (List TelemetryReading × Bool)
  anomalies_sent : List AnomalyEvent
  sink_results : List Bool
  sim_time : ℚ
deriving DecidableEq

structure SimConfig where
  duration_minutes : ℤ
  time_step_seconds : ℤ
  time_scale_factor : ℤ
  batch_size : ℕ

/-- One vehicle's slice of the tick loop body: lifecycle management followed by
the vehicle's `tick`; a per-vehicle exception is caught and that vehicle's
telemetry skipped. -/
def process_vehicle (w : GridWorld) (step : ℤ) (c : SimCore) (v : VehicleAgent) :
    SimCore :=
  let (v1, g1) := manage_vehicle_lifecycle w v c.gen
  match tick v1 c.sim_time step g1 with
  | .error _ =>
    { c with vehicles := c.vehicles ++ [v1], gen := g1 }
  | .ok (v2, telemetry, anomaly, g2) =>
    let c' := { c with
      vehicles := c.vehicles ++ [v2], gen := g2,
      telemetry_buffer := c.telemetry_buffer ++ [telemetry],
      telemetry_log := c.telemetry_log ++ [telemetry] }
    match anomaly with
    | none => c'
    | some ev =>
      { c' with
        anomaly_log := c'.anomaly_log ++ [ev],
        anomalies_sent := c'.anomalies_sent ++ [ev] }

/-- The buffer flush at the end of one tick: send the batch when the buffer has
reached `batch_size`, clearing it only when the sink reports success. -/
def flush_check (batch_size : ℕ) (c : SimCore) : SimCore :=
  if batch_size ≤ c.telemetry_buffer.length then
    let result := c.sink_results.headD false
    { c with
      sent_batches := c.sent_batches ++ [(c.telemetry_buffer, result)],
      sink_results := c.sink_results.tail,
      telemetry_buffer := if result then [] else c.telemetry_buffer }
  else c

/-- The final flush after the tick loop: any remaining buffered readings are
sent once more (the buffer itself is not cleared; the run is over). -/
def final_flush (c : SimCore) : SimCore :=
  if c.telemetry_buffer = [] then c
  else
    { c with
      sent_batches := c.sent_batches ++ [(c.telemetry_buffer, c.sink_results.headD false)],
      sink_results := c.sink_results.tail }

/-- One full tick of the orchestrator loop over the log-determining state:
process every vehicle, run the flush check, advance simulated time. -/
def core_tick (w : GridWorld) (cfg : SimConfig) (c : SimCore) : SimCore :=
  let c1 := c.vehicles.foldl (process_vehicle w cfg.time_step_seconds)
    { c with vehicles := [] }
  let c2 := flush_check cfg.batch_size c1
  { c2 with sim_time := c2.sim_time + (cfg.time_step_seconds : ℚ) }

/-- Full per-tick state: the log-determining core plus the wall-clock readings
(`time.time()`) consumed by real-time pacing and the sleeps they induce. -/
structure SimState where
  core : SimCore
  wall_clock : List ℚ
  sleeps : List ℚ

/-- One orchestrator tick including real-time pacing: two `time.time()`
readings bracket the computation and the loop sleeps off the remainder of the
tick's real-time budget (never a negative time). -/
def sim_tick (w : GridWorld) (cfg : SimConfig) (real_time_per_tick : ℚ)
    (s : SimState) : SimState :=
  let tick_start := s.wall_clock.headD 0
  let core' := core_tick w cfg s.core
  let tick_end := s.wall_clock.tail.headD 0
  let sleep_time := pyMax 0 (real_time_per_tick - (tick_end - tick_start))
  { core := core', wall_clock := s.wall_clock.tail.tail,
    sleeps := s.sleeps ++ [sleep_time] }

structure SimResult where
  telemetry : List TelemetryReading
  anomalies : List AnomalyEvent
  sent_batches : List (List TelemetryReading × Bool)
  sleeps : List ℚ
deriving DecidableEq

/-- `SimulationEngine.run_simulation`: parameter validation, the health check,
`(duration*60) // step` ticks of the main loop, and the final flush.
`start_time` is the value of `datetime.now()` taken at the start of the run;
`wall_clock` is the stream of `time.time()` readings used for pacing. -/
def run_simulation (w : GridWorld) (vehicles : List VehicleAgent)
    (cfg : SimConfig) (health : Bool) (sink_results : List Bool) (g : RandGen)
    (start_time : ℚ) (wall_clock : List ℚ) : Except String SimResult :=
  if cfg.duration_minutes ≤ 0 then .error "Duration must be positive"
  else if cfg.time_step_seconds ≤ 0 then .error "Time step must be positive"
  else if cfg.time_scale_factor ≤ 0 then .error "Time scale factor must be positive"
  else if vehicles = [] then .error "No vehicles in fleet"
  else if ¬ health then .error "Cannot connect to API"
  else
    let total_simulation_ticks := ((cfg.duration_minutes * 60) / cfg.time_step_seconds).toNat
    let real_time_per_tick : ℚ := (cfg.time_step_seconds : ℚ) / (cfg.time_scale_factor : ℚ)
    let init : SimState :=
      { core := { vehicles := vehicles, gen := g, telemetry_buffer := [],
                  telemetry_log := [], anomaly_log := [], sent_batches := [],
                  anomalies_sent := [], sink_results := sink_results,
                  sim_time := start_time }
        wall_clock := wall_clock, sleeps := [] }
    let final := (List.range total_simulation_ticks).foldl
      (fun s _ => sim_tick w cfg real_time_per_tick s) init
    let fc := final_flush final.core
    .ok { telemetry := fc.telemetry_log, anomalies := fc.anomaly_log,
          sent_batches := fc.sent_batches, sleeps := final.sleeps }

/-! ### Vehicle operation sequences (for the state invariants) -/

/-- The caller-facing mutating operations on a `VehicleAgent`. -/
inductive Op where
  | assign (route : List (ℚ × ℚ)) (speed_kph : ℚ)
  | refuelOp
  | tickOp (timestamp : ℚ) (delta_time_seconds : ℤ)

/-- Apply one operation to a vehicle and the random source; a `tick` that
raises leaves the state unchanged (`tick_caught`). -/
def apply_op (p : VehicleAgent × RandGen) : Op → VehicleAgent × RandGen
  | .assign r s => (assign_new_trip p.1 r s, p.2)
  | .refuelOp => (refuel p.1, p.2)
  | .tickOp t δ => ((tick_caught p.1 t δ p.2).1, (tick_caught p.1 t δ p.2).2.2)

/-- A sequence of operations applied in order. -/
def runOps (ops : List Op) (a : VehicleAgent) (g : RandGen) :
    VehicleAgent × RandGen :=
  ops.foldl apply_op (a, g)

/-- Well-formed operations: physical (non-negative) assignment speeds and
positive tick deltas. -/
def ValidOp : Op → Prop
  | .assign _ s => 0 ≤ s
  | .refuelOp => True
  | .tickOp _ δ => 0 < δ

/-- Well-formedness of the immutable vehicle configuration. -/
def WFagent (a : VehicleAgent) : Prop :=
  0 < a.tank_capacity_liters ∧ 0 < a.mileage_kmpl
  ∧ 0 ≤ a.behavioral_profile.theft_pct_min
  ∧ a.behavioral_profile.theft_pct_min ≤ a.behavioral_profile.theft_pct_max

/-- The C4 state invariants: fuel within the tank, progress within the edge,
edge index within the route whenever a route (≥ 2 nodes) is assigned, a
non-negative idle countdown, and (auxiliary) a non-negative speed. -/
def Inv (a : VehicleAgent) : Prop :=
  0 ≤ a.fuel_liters ∧ a.fuel_liters ≤ a.tank_capacity_liters
  ∧ 0 ≤ a.progress_on_edge ∧ a.progress_on_edge ≤ 1
  ∧ (2 ≤ a.route.length → (a.current_edge_index : ℤ) ≤ (a.route.length : ℤ) - 1)
  ∧ 0 ≤ a.state_timer_seconds
  ∧ 0 ≤ a.speed_kph

/-! ### Concrete example fixtures (used to instantiate the theorems) -/

/-- The dataclass-default behavioural profile. -/
def exampleProfile : BehavioralProfile := ⟨1/10, 1/20, 1, 15⟩

/-- The spec's end-to-end example vehicle: default configuration, assigned the
route [(0,0),(1,0),(2,0)] at 60 kph. -/
def exampleVehicle : VehicleAgent :=
  assign_new_trip (mkVehicle "V-A-001" exampleProfile) [(0, 0), (1, 0), (2, 0)] 60

/-- A vehicle one tick later: arrived at the intermediate node and advanced. -/
def exampleVehicleMid : VehicleAgent :=
  { exampleVehicle with current_edge_index := 1 }

/-- A concrete draw stream: stop triggered, mid-range idle timer, theft
triggered, mid-range theft percentage. -/
def exampleGen : RandGen := [0, 1/2, 0, 1/2]

/-- A concrete draw stream whose first draw refuses the stop. -/
def exampleGenNoStop : RandGen := [9/10, 1/2, 1/2, 1/2]

/-- A concrete telemetry reading. -/
def exampleReading : TelemetryReading :=
  { vehicle_id := "V-A-001", timestamp := 0, latitude := 0, longitude := 0,
    speed_kph := 0, fuel_percentage := 100 }

/-- A concrete orchestrator core state holding one buffered reading and a
sink that fails once then succeeds. -/
def exampleCore : SimCore :=
  { vehicles := [], gen := [], telemetry_buffer := [exampleReading],
    telemetry_log := [], anomaly_log := [], sent_batches := [],
    anomalies_sent := [], sink_results := [false, true], sim_time := 0 }

/-- The fleet produced from 10 vehicles over two profiles. -/
def exampleFleet : List VehicleAgent :=
  (create_vehicle_fleet 10 [("a", exampleProfile), ("b", default)]).toOption.getD []

/-- A 2-node example world with a trivial two-endpoint path function. -/
def exampleWorld : GridWorld :=
  { width := 2, height := 1, nodes := [(0, 0), (1, 0)],
    refueling_stations := [], sp := fun a b => if a = b then [a] else [a, b] }

/-- A vehicle held in the Refueling state (never Parked, so the life-cycle
manager leaves it alone). -/
def exampleRefuelingVehicle : VehicleAgent :=
  { mkVehicle "V-A-001" exampleProfile with state := .REFUELING }

/-- A 1-minute, 60-second-step, batch-50 run configuration. -/
def exampleConfig : SimConfig :=
  { duration_minutes := 1, time_step_seconds := 60, time_scale_factor := 60,
    batch_size := 50 }

/-! ### Basic lemmas about the embedding -/

lemma pyRound_zero (d : ℕ) : pyRound 0 d = 0 := by
  unfold pyRound roundHalfEven
  norm_num

lemma update_idle_timer_route (a : VehicleAgent) (δ : ℤ) :
    (update_idle_timer a δ).route = a.route := by
  unfold update_idle_timer resume_driving
  split
  · dsimp only
    split <;> rfl
  · rfl

lemma apply_driving_physics_route (a : VehicleAgent) (δ : ℤ) :
    ((apply_driving_physics a δ).1).route = a.route := by
  unfold apply_driving_physics stop_vehicle
  split <;> rfl

lemma update_fuel_consumption_route (a : VehicleAgent) (d : ℚ) (δ : ℤ) :
    (update_fuel_consumption a d δ).route = a.route := by
  unfold update_fuel_consumption
  rfl

lemma check_and_handle_arrivals_route (a : VehicleAgent) (t : ℚ) (g : RandGen) :
    ((check_and_handle_arrivals a t g).1).route = a.route := by
  unfold check_and_handle_arrivals complete_trip handle_intermediate_arrival
    initiate_stop perform_fuel_theft advance_to_next_edge
  split
  · rfl
  · split
    · rfl
    · dsimp only
      split <;> (try split) <;> rfl

lemma tick_reading (a : VehicleAgent) (t : ℚ) (δ : ℤ) (g : RandGen)
    (a' : VehicleAgent) (rd : TelemetryReading) (ev : Option AnomalyEvent)
    (g' : RandGen) (h : tick a t δ g = .ok (a', rd, ev, g')) :
    rd = create_telemetry_reading a' t := by
  unfold tick at h
  split at h
  · cases h
  · simp only [Except.ok.injEq, Prod.mk.injEq] at h
    obtain ⟨h1, h2, -, -⟩ := h
    subst h1
    exact h2.symm

lemma tick_physics_route (a : VehicleAgent) (δ : ℤ) :
    ((tick_physics a δ).1).route = a.route := by
  unfold tick_physics apply_stationary_physics
  split
  · exact apply_driving_physics_route a δ
  · split <;> rfl

lemma tick_arrivals_route (a : VehicleAgent) (t : ℚ) (g : RandGen) :
    ((tick_arrivals a t g).1).route = a.route := by
  unfold tick_arrivals
  split
  · exact check_and_handle_arrivals_route a t g
  · rfl

/-- On success, `tick` returns the post-arrival agent together with a reading
generated from it. -/
lemma tick_ok_eq (a : VehicleAgent) (t : ℚ) (δ : ℤ) (g : RandGen) (hδ : 0 < δ) :
    tick a t δ g =
      let q := tick_arrivals
        (update_fuel_consumption (tick_physics (update_idle_timer a δ) δ).1
          (tick_physics (update_idle_timer a δ) δ).2 δ) t g
      .ok (q.1, create_telemetry_reading q.1 t, q.2.1, q.2.2) := by
  unfold tick
  rw [if_neg (not_le.mpr hδ)]

lemma tick_route (a : VehicleAgent) (t : ℚ) (δ : ℤ) (g : RandGen)
    (a' : VehicleAgent) (rd : TelemetryReading) (ev : Option AnomalyEvent)
    (g' : RandGen) (h : tick a t δ g = .ok (a', rd, ev, g')) :
    a'.route = a.route := by
  unfold tick at h
  split at h
  · cases h
  · simp only [Except.ok.injEq, Prod.mk.injEq] at h
    obtain ⟨h1, -, -, -⟩ := h
    subst h1
    rw [tick_arrivals_route, update_fuel_consumption_route, tick_physics_route,
      update_idle_timer_route]

lemma update_idle_timer_of_driving (a : VehicleAgent) (δ : ℤ)
    (h : a.state = .DRIVING) : update_idle_timer a δ = a := by
  unfold update_idle_timer
  rw [if_neg (by simp [h])]

/-- The distance commanded during one Driving tick. -/
def driving_distance (a : VehicleAgent) (δ : ℤ) : ℚ :=
  a.speed_kph * ((δ : ℚ) / 3600)

/-- The clamped edge progress after one Driving tick. -/
def driving_progress (a : VehicleAgent) (δ : ℤ) : ℚ :=
  pyMin (a.progress_on_edge + driving_distance a δ / EDGE_LENGTH_KM) 1

lemma tick_physics_of_driving (a : VehicleAgent) (δ : ℤ)
    (hs : a.state = .DRIVING) (har : has_active_route a) :
    tick_physics a δ =
      ({ a with progress_on_edge := driving_progress a δ }, driving_distance a δ) := by
  unfold tick_physics apply_driving_physics driving_progress driving_distance
  rw [if_pos hs, if_neg (not_not_intro har)]

@[simp] lemma update_fuel_consumption_state (a : VehicleAgent) (d : ℚ) (δ : ℤ) :
    (update_fuel_consumption a d δ).state = a.state := rfl

@[simp] lemma update_fuel_consumption_idx (a : VehicleAgent) (d : ℚ) (δ : ℤ) :
    (update_fuel_consumption a d δ).current_edge_index = a.current_edge_index := rfl

@[simp] lemma update_fuel_consumption_progress (a : VehicleAgent) (d : ℚ) (δ : ℤ) :
    (update_fuel_consumption a d δ).progress_on_edge = a.progress_on_edge := rfl

@[simp] lemma update_fuel_consumption_profile (a : VehicleAgent) (d : ℚ) (δ : ℤ) :
    (update_fuel_consumption a d δ).behavioral_profile = a.behavioral_profile := rfl

@[simp] lemma update_fuel_consumption_route_simp (a : VehicleAgent) (d : ℚ) (δ : ℤ) :
    (update_fuel_consumption a d δ).route = a.route := rfl

@[simp] lemma update_fuel_consumption_capacity (a : VehicleAgent) (d : ℚ) (δ : ℤ) :
    (update_fuel_consumption a d δ).tank_capacity_liters = a.tank_capacity_liters := rfl

@[simp] lemma update_fuel_consumption_mileage (a : VehicleAgent) (d : ℚ) (δ : ℤ) :
    (update_fuel_consumption a d δ).mileage_kmpl = a.mileage_kmpl := rfl

@[simp] lemma perform_fuel_theft_state (a : VehicleAgent) (t : ℚ) (g : RandGen) :
    ((perform_fuel_theft a t g).1).state = a.state := rfl

@[simp] lemma perform_fuel_theft_idx (a : VehicleAgent) (t : ℚ) (g : RandGen) :
    ((perform_fuel_theft a t g).1).current_edge_index = a.current_edge_index := rfl

@[simp] lemma perform_fuel_theft_progress (a : VehicleAgent) (t : ℚ) (g : RandGen) :
    ((perform_fuel_theft a t g).1).progress_on_edge = a.progress_on_edge := rfl

@[simp] lemma perform_fuel_theft_route (a : VehicleAgent) (t : ℚ) (g : RandGen) :
    ((perform_fuel_theft a t g).1).route = a.route := rfl

lemma GoodGen.headD_nonneg {g : RandGen} (h : GoodGen g) : 0 ≤ g.headD 0 := by
  cases g with
  | nil => simp
  | cons u g' => exact (h u (List.mem_cons_self u g')).1

lemma update_idle_timer_fuel (a : VehicleAgent) (δ : ℤ) :
    (update_idle_timer a δ).fuel_liters = a.fuel_liters := by
  unfold update_idle_timer resume_driving
  split
  · dsimp only
    split <;> rfl
  · rfl

lemma update_idle_timer_speed (a : VehicleAgent) (δ : ℤ) (h : 0 ≤ a.speed_kph) :
    0 ≤ (update_idle_timer a δ).speed_kph := by
  unfold update_idle_timer resume_driving DEFAULT_SPEED_KPH
  split
  · dsimp only
    split
    · norm_num
    · exact h
  · exact h

lemma tick_physics_fuel (a : VehicleAgent) (δ : ℤ) :
    ((tick_physics a δ).1).fuel_liters = a.fuel_liters := by
  unfold tick_physics apply_driving_physics stop_vehicle apply_stationary_physics
  split
  · split <;> rfl
  · split <;> rfl

lemma tick_physics_dist_nonneg (a : VehicleAgent) (δ : ℤ)
    (hspeed : 0 ≤ a.speed_kph) (hδ : 0 < δ) : 0 ≤ (tick_physics a δ).2 := by
  unfold tick_physics apply_driving_physics
  split
  · split
    · exact le_rfl
    · dsimp only
      positivity
  · split <;> exact le_rfl

lemma update_fuel_consumption_le (a : VehicleAgent) (d : ℚ) (δ : ℤ)
    (hfuel : 0 ≤ a.fuel_liters) (hm : 0 < a.mileage_kmpl) (hd : 0 ≤ d)
    (hδ : 0 < δ) :
    (update_fuel_consumption a d δ).fuel_liters ≤ a.fuel_liters
    ∧ 0 ≤ (update_fuel_consumption a d δ).fuel_liters := by
  unfold update_fuel_consumption IDLE_CONSUMPTION_LPH
  dsimp only
  rw [pyMax_eq]
  have hcons : (0 : ℚ) ≤
      (if a.state = VehicleState.DRIVING ∧ 0 < d then d / a.mileage_kmpl
       else if a.state = VehicleState.IDLING then 4/5 * ((δ : ℚ) / 3600) else 0) := by
    split
    · positivity
    · split
      · positivity
      · exact le_rfl
  exact ⟨max_le hfuel (sub_le_self _ hcons), le_max_left 0 _⟩

lemma perform_fuel_theft_fuel_le (a : VehicleAgent) (t : ℚ) (g : RandGen)
    (hfuel : 0 ≤ a.fuel_liters) (hcap : 0 ≤ a.tank_capacity_liters)
    (hmin : 0 ≤ a.behavioral_profile.theft_pct_min)
    (hminmax : a.behavioral_profile.theft_pct_min ≤ a.behavioral_profile.theft_pct_max)
    (hg : GoodGen g) :
    ((perform_fuel_theft a t g).1).fuel_liters ≤ a.fuel_liters
    ∧ 0 ≤ ((perform_fuel_theft a t g).1).fuel_liters := by
  unfold perform_fuel_theft nextUniform nextRand
  dsimp only
  rw [pyMax_eq]
  have hu : 0 ≤ g.headD 0 := hg.headD_nonneg
  have hpct : 0 ≤ a.behavioral_profile.theft_pct_min
      + (a.behavioral_profile.theft_pct_max - a.behavioral_profile.theft_pct_min)
        * g.headD 0 := by
    have := mul_nonneg (sub_nonneg.mpr hminmax) hu
    linarith
  have hstolen : (0 : ℚ) ≤ (a.behavioral_profile.theft_pct_min
      + (a.behavioral_profile.theft_pct_max - a.behavioral_profile.theft_pct_min)
        * g.headD 0) / 100 * a.tank_capacity_liters := by positivity
  exact ⟨max_le hfuel (sub_le_self _ hstolen), le_max_left 0 _⟩

lemma check_and_handle_arrivals_fuel_le (a : VehicleAgent) (t : ℚ) (g : RandGen)
    (hfuel : 0 ≤ a.fuel_liters) (hcap : 0 ≤ a.tank_capacity_liters)
    (hmin : 0 ≤ a.behavioral_profile.theft_pct_min)
    (hminmax : a.behavioral_profile.theft_pct_min ≤ a.behavioral_profile.theft_pct_max)
    (hg : GoodGen g) :
    ((check_and_handle_arrivals a t g).1).fuel_liters ≤ a.fuel_liters
    ∧ 0 ≤ ((check_and_handle_arrivals a t g).1).fuel_liters := by
  unfold check_and_handle_arrivals complete_trip handle_intermediate_arrival
    initiate_stop nextRandint nextRand advance_to_next_edge
  split
  · exact ⟨le_rfl, hfuel⟩
  · split
    · exact ⟨le_rfl, hfuel⟩
    · dsimp only
      split
      · split
        · exact perform_fuel_theft_fuel_le _ t _ hfuel hcap hmin hminmax
            hg.tail.tail.tail
        · exact ⟨le_rfl, hfuel⟩
      · exact ⟨le_rfl, hfuel⟩

lemma tick_arrivals_fuel_le (a : VehicleAgent) (t : ℚ) (g : RandGen)
    (hfuel : 0 ≤ a.fuel_liters) (hcap : 0 ≤ a.tank_capacity_liters)
    (hmin : 0 ≤ a.behavioral_profile.theft_pct_min)
    (hminmax : a.behavioral_profile.theft_pct_min ≤ a.behavioral_profile.theft_pct_max)
    (hg : GoodGen g) :
    ((tick_arrivals a t g).1).fuel_liters ≤ a.fuel_liters
    ∧ 0 ≤ ((tick_arrivals a t g).1).fuel_liters := by
  unfold tick_arrivals
  split
  · exact check_and_handle_arrivals_fuel_le a t g hfuel hcap hmin hminmax hg
  · exact ⟨le_rfl, hfuel⟩

lemma update_idle_timer_config (a : VehicleAgent) (δ : ℤ) :
    (update_idle_timer a δ).tank_capacity_liters = a.tank_capacity_liters
    ∧ (update_idle_timer a δ).mileage_kmpl = a.mileage_kmpl
    ∧ (update_idle_timer a δ).behavioral_profile = a.behavioral_profile := by
  unfold update_idle_timer resume_driving
  split
  · dsimp only
    split <;> exact ⟨rfl, rfl, rfl⟩
  · exact ⟨rfl, rfl, rfl⟩

lemma tick_physics_config (a : VehicleAgent) (δ : ℤ) :
    ((tick_physics a δ).1).tank_capacity_liters = a.tank_capacity_liters
    ∧ ((tick_physics a δ).1).mileage_kmpl = a.mileage_kmpl
    ∧ ((tick_physics a δ).1).behavioral_profile = a.behavioral_profile := by
  unfold tick_physics apply_driving_physics stop_vehicle apply_stationary_physics
  split
  · split <;> exact ⟨rfl, rfl, rfl⟩
  · split <;> exact ⟨rfl, rfl, rfl⟩

lemma tick_caught_fst (a : VehicleAgent) (t : ℚ) (δ : ℤ) (g : RandGen)
    (hδ : 0 < δ) :
    (tick_caught a t δ g).1 =
      (tick_arrivals (update_fuel_consumption (tick_physics (update_idle_timer a δ) δ).1
        (tick_physics (update_idle_timer a δ) δ).2 δ) t g).1 := by
  unfold tick_caught
  rw [tick_ok_eq a t δ g hδ]

lemma GoodGen.headD_lt_one {g : RandGen} (h : GoodGen g) : g.headD 0 < 1 := by
  cases g with
  | nil => norm_num
  | cons u g' => exact (h u (List.mem_cons_self u g')).2

lemma inv_update_idle_timer (a : VehicleAgent) (δ : ℤ) (h : Inv a) :
    Inv (update_idle_timer a δ) := by
  obtain ⟨h1, h2, h3, h4, h5, h6, h7⟩ := h
  unfold update_idle_timer resume_driving
  split
  · dsimp only
    split
    · exact ⟨h1, h2, h3, h4, h5, le_max_left 0 _, by norm_num [DEFAULT_SPEED_KPH]⟩
    · exact ⟨h1, h2, h3, h4, h5, le_max_left 0 _, h7⟩
  · exact ⟨h1, h2, h3, h4, h5, h6, h7⟩

lemma inv_tick_physics (a : VehicleAgent) (δ : ℤ) (h : Inv a) (hδ : 0 < δ) :
    Inv ((tick_physics a δ).1) := by
  obtain ⟨h1, h2, h3, h4, h5, h6, h7⟩ := h
  have hδq : (0 : ℚ) ≤ (δ : ℚ) / 3600 := by positivity
  unfold tick_physics apply_driving_physics stop_vehicle apply_stationary_physics
  split
  · split
    · exact ⟨h1, h2, h3, h4, h5, h6, le_rfl⟩
    · dsimp only
      refine ⟨h1, h2, ?_, ?_, h5, h6, h7⟩
      · rw [pyMin_eq]
        refine le_min (add_nonneg h3 (div_nonneg (mul_nonneg h7 hδq) ?_)) (by norm_num)
        norm_num [EDGE_LENGTH_KM]
      · rw [pyMin_eq]
        exact min_le_right _ _
  · split
    · exact ⟨h1, h2, h3, h4, h5, h6, le_rfl⟩
    · exact ⟨h1, h2, h3, h4, h5, h6, h7⟩

lemma inv_update_fuel_consumption (a : VehicleAgent) (d : ℚ) (δ : ℤ)
    (h : Inv a) (hm : 0 < a.mileage_kmpl) (hd : 0 ≤ d) (hδ : 0 < δ) :
    Inv (update_fuel_consumption a d δ) := by
  obtain ⟨h1, h2, h3, h4, h5, h6, h7⟩ := h
  have hle := update_fuel_consumption_le a d δ h1 hm hd hδ
  exact ⟨hle.2, hle.1.trans h2, h3, h4, h5, h6, h7⟩

lemma inv_initiate_stop (a : VehicleAgent) (t : ℚ) (g : RandGen)
    (h : Inv a) (hcap : 0 ≤ a.tank_capacity_liters)
    (hmin : 0 ≤ a.behavioral_profile.theft_pct_min)
    (hminmax : a.behavioral_profile.theft_pct_min ≤ a.behavioral_profile.theft_pct_max)
    (hg : GoodGen g) :
    Inv ((initiate_stop a t g).1) := by
  obtain ⟨h1, h2, h3, h4, h5, h6, h7⟩ := h
  unfold initiate_stop nextRandint nextRand
  dsimp only
  have hfl0 : 0 ≤ ⌊((600 - 120 + 1 : ℤ) : ℚ) * g.headD 0⌋ :=
    Int.floor_nonneg.mpr (mul_nonneg (by norm_num) hg.headD_nonneg)
  have htmr : (0 : ℤ) ≤ 120 + ⌊((600 - 120 + 1 : ℤ) : ℚ) * g.headD 0⌋ := by
    linarith
  split
  · have hth := perform_fuel_theft_fuel_le
      { a with
        state := .IDLING,
        speed_kph := 0,
        state_timer_seconds := 120 + ⌊((600 - 120 + 1 : ℤ) : ℚ) * g.headD 0⌋ }
      t g.tail.tail h1 hcap hmin hminmax hg.tail.tail
    exact ⟨hth.2, hth.1.trans h2, h3, h4, h5, htmr, le_rfl⟩
  · exact ⟨h1, h2, h3, h4, h5, htmr, le_rfl⟩

lemma inv_advance_to_next_edge (a : VehicleAgent) (h : Inv a)
    (hnf : ¬ is_at_final_destination a) : Inv (advance_to_next_edge a) := by
  obtain ⟨h1, h2, h3, h4, h5, h6, h7⟩ := h
  unfold is_at_final_destination at hnf
  unfold advance_to_next_edge
  refine ⟨h1, h2, le_rfl, by norm_num, ?_, h6, h7⟩
  intro _
  push_cast
  omega

lemma inv_handle_intermediate_arrival (a : VehicleAgent) (t : ℚ) (g : RandGen)
    (h : Inv a) (hnf : ¬ is_at_final_destination a)
    (hcap : 0 ≤ a.tank_capacity_liters)
    (hmin : 0 ≤ a.behavioral_profile.theft_pct_min)
    (hminmax : a.behavioral_profile.theft_pct_min ≤ a.behavioral_profile.theft_pct_max)
    (hg : GoodGen g) :
    Inv ((handle_intermediate_arrival a t g).1) := by
  unfold handle_intermediate_arrival nextRand
  dsimp only
  split
  · exact inv_initiate_stop (advance_to_next_edge a) t g.tail
      (inv_advance_to_next_edge a h hnf) hcap hmin hminmax hg.tail
  · exact inv_advance_to_next_edge a h hnf

lemma inv_check_and_handle_arrivals (a : VehicleAgent) (t : ℚ) (g : RandGen)
    (h : Inv a) (hcap : 0 ≤ a.tank_capacity_liters)
    (hmin : 0 ≤ a.behavioral_profile.theft_pct_min)
    (hminmax : a.behavioral_profile.theft_pct_min ≤ a.behavioral_profile.theft_pct_max)
    (hg : GoodGen g) :
    Inv ((check_and_handle_arrivals a t g).1) := by
  unfold check_and_handle_arrivals
  split
  · exact h
  · split
    · obtain ⟨h1, h2, h3, h4, h5, h6, h7⟩ := h
      exact ⟨h1, h2, h3, h4, h5, h6, le_rfl⟩
    · rename_i hreach hnf
      exact inv_handle_intermediate_arrival a t g h hnf hcap hmin hminmax hg

lemma inv_tick_arrivals (a : VehicleAgent) (t : ℚ) (g : RandGen)
    (h : Inv a) (hcap : 0 ≤ a.tank_capacity_liters)
    (hmin : 0 ≤ a.behavioral_profile.theft_pct_min)
    (hminmax : a.behavioral_profile.theft_pct_min ≤ a.behavioral_profile.theft_pct_max)
    (hg : GoodGen g) :
    Inv ((tick_arrivals a t g).1) := by
  unfold tick_arrivals
  split
  · exact inv_check_and_handle_arrivals a t g h hcap hmin hminmax hg
  · exact h

lemma check_and_handle_arrivals_config (a : VehicleAgent) (t : ℚ) (g : RandGen) :
    ((check_and_handle_arrivals a t g).1).tank_capacity_liters = a.tank_capacity_liters
    ∧ ((check_and_handle_arrivals a t g).1).mileage_kmpl = a.mileage_kmpl
    ∧ ((check_and_handle_arrivals a t g).1).behavioral_profile = a.behavioral_profile := by
  unfold check_and_handle_arrivals complete_trip handle_intermediate_arrival
    initiate_stop perform_fuel_theft nextUniform nextRandint nextRand
    advance_to_next_edge
  split
  · exact ⟨rfl, rfl, rfl⟩
  · split
    · exact ⟨rfl, rfl, rfl⟩
    · dsimp only
      split
      · split <;> exact ⟨rfl, rfl, rfl⟩
      · exact ⟨rfl, rfl, rfl⟩

lemma tick_arrivals_config (a : VehicleAgent) (t : ℚ) (g : RandGen) :
    ((tick_arrivals a t g).1).tank_capacity_liters = a.tank_capacity_liters
    ∧ ((tick_arrivals a t g).1).mileage_kmpl = a.mileage_kmpl
    ∧ ((tick_arrivals a t g).1).behavioral_profile = a.behavioral_profile := by
  unfold tick_arrivals
  split
  · exact check_and_handle_arrivals_config a t g
  · exact ⟨rfl, rfl, rfl⟩

lemma tick_arrivals_gen (a : VehicleAgent) (t : ℚ) (g : RandGen)
    (hg : GoodGen g) : GoodGen ((tick_arrivals a t g).2.2) := by
  unfold tick_arrivals check_and_handle_arrivals handle_intermediate_arrival
    initiate_stop perform_fuel_theft nextUniform nextRandint nextRand
  split
  · split
    · exact hg
    · split
      · exact hg
      · dsimp only
        split
        · split
          · exact hg.tail.tail.tail.tail
          · exact hg.tail.tail.tail
        · exact hg.tail
  · exact hg

lemma tick_error_of_nonpos (a : VehicleAgent) (t : ℚ) (δ : ℤ) (g : RandGen)
    (hδ : δ ≤ 0) :
    tick a t δ g = .error "delta_time_seconds must be positive" := by
  unfold tick
  rw [if_pos hδ]

lemma tick_caught_gen (a : VehicleAgent) (t : ℚ) (δ : ℤ) (g : RandGen)
    (hg : GoodGen g) : GoodGen ((tick_caught a t δ g).2.2) := by
  unfold tick_caught
  by_cases hδ : δ ≤ 0
  · rw [tick_error_of_nonpos a t δ g hδ]
    exact hg
  · rw [tick_ok_eq a t δ g (not_le.mp hδ)]
    exact tick_arrivals_gen _ t g hg

lemma tick_caught_config (a : VehicleAgent) (t : ℚ) (δ : ℤ) (g : RandGen) :
    ((tick_caught a t δ g).1).tank_capacity_liters = a.tank_capacity_liters
    ∧ ((tick_caught a t δ g).1).mileage_kmpl = a.mileage_kmpl
    ∧ ((tick_caught a t δ g).1).behavioral_profile = a.behavioral_profile := by
  unfold tick_caught
  by_cases hδ : δ ≤ 0
  · rw [tick_error_of_nonpos a t δ g hδ]
    exact ⟨rfl, rfl, rfl⟩
  · rw [tick_ok_eq a t δ g (not_le.mp hδ)]
    obtain ⟨hc1, hm1, hp1⟩ := update_idle_timer_config a δ
    obtain ⟨hc2, hm2, hp2⟩ := tick_physics_config (update_idle_timer a δ) δ
    obtain ⟨hc4, hm4, hp4⟩ := tick_arrivals_config
      (update_fuel_consumption (tick_physics (update_idle_timer a δ) δ).1
        (tick_physics (update_idle_timer a δ) δ).2 δ) t g
    refine ⟨?_, ?_, ?_⟩
    · show ((tick_arrivals _ t g).1).tank_capacity_liters = _
      rw [hc4, update_fuel_consumption_capacity, hc2, hc1]
    · show ((tick_arrivals _ t g).1).mileage_kmpl = _
      rw [hm4, update_fuel_consumption_mileage, hm2, hm1]
    · show ((tick_arrivals _ t g).1).behavioral_profile = _
      rw [hp4, update_fuel_consumption_profile, hp2, hp1]

lemma inv_tick_caught (a : VehicleAgent) (t : ℚ) (δ : ℤ) (g : RandGen)
    (hwf : WFagent a) (hinv : Inv a) (hg : GoodGen g) :
    Inv ((tick_caught a t δ g).1) := by
  obtain ⟨hcap, hm, hmin, hminmax⟩ := hwf
  unfold tick_caught
  by_cases hδ : δ ≤ 0
  · rw [tick_error_of_nonpos a t δ g hδ]
    exact hinv
  · push_neg at hδ
    rw [tick_ok_eq a t δ g hδ]
    obtain ⟨hc1, hm1, hp1⟩ := update_idle_timer_config a δ
    obtain ⟨hc2, hm2, hp2⟩ := tick_physics_config (update_idle_timer a δ) δ
    have hinv1 := inv_update_idle_timer a δ hinv
    have hinv2 := inv_tick_physics (update_idle_timer a δ) δ hinv1 hδ
    have hspeed1 : 0 ≤ (update_idle_timer a δ).speed_kph :=
      update_idle_timer_speed a δ hinv.2.2.2.2.2.2
    have hdist : 0 ≤ (tick_physics (update_idle_timer a δ) δ).2 :=
      tick_physics_dist_nonneg (update_idle_timer a δ) δ hspeed1 hδ
    have hinv3 := inv_update_fuel_consumption
      (tick_physics (update_idle_timer a δ) δ).1
      (tick_physics (update_idle_timer a δ) δ).2 δ hinv2
      (by rw [hm2, hm1]; exact hm) hdist hδ
    exact inv_tick_arrivals _ t g hinv3
      (by rw [update_fuel_consumption_capacity, hc2, hc1]; exact le_of_lt hcap)
      (by rw [update_fuel_consumption_profile, hp2, hp1]; exact hmin)
      (by rw [update_fuel_consumption_profile, hp2, hp1]; exact hminmax)
      hg

lemma inv_assign_new_trip (a : VehicleAgent) (r : List (ℚ × ℚ)) (sp : ℚ)
    (h : Inv a) (hsp : 0 ≤ sp) : Inv (assign_new_trip a r sp) := by
  obtain ⟨h1, h2, h3, h4, h5, h6, h7⟩ := h
  unfold assign_new_trip
  split
  · exact ⟨h1, h2, h3, h4, by intro hh; simp at hh, h6, le_rfl⟩
  · rename_i hlen
    refine ⟨h1, h2, le_rfl, by norm_num, ?_, le_rfl, hsp⟩
    show 2 ≤ r.length → (0 : ℤ) ≤ (r.length : ℤ) - 1
    intro _
    omega

lemma assign_new_trip_config (a : VehicleAgent) (r : List (ℚ × ℚ)) (sp : ℚ) :
    (assign_new_trip a r sp).tank_capacity_liters = a.tank_capacity_liters
    ∧ (assign_new_trip a r sp).mileage_kmpl = a.mileage_kmpl
    ∧ (assign_new_trip a r sp).behavioral_profile = a.behavioral_profile := by
  unfold assign_new_trip
  split <;> exact ⟨rfl, rfl, rfl⟩

lemma parked_tick_fuel (a : VehicleAgent) (t : ℚ) (δ : ℤ) (g : RandGen)
    (hsP : a.state = .PARKED) (hfuel : 0 ≤ a.fuel_liters) :
    ((tick_caught a t δ g).1).fuel_liters = a.fuel_liters := by
  unfold tick_caught
  by_cases hδ : δ ≤ 0
  · rw [tick_error_of_nonpos a t δ g hδ]
  · push_neg at hδ
    rw [tick_ok_eq a t δ g hδ]
    have h1 : update_idle_timer a δ = a := by
      unfold update_idle_timer
      rw [if_neg (by rw [hsP]; intro h; cases h.1)]
    show ((tick_arrivals (update_fuel_consumption
      (tick_physics (update_idle_timer a δ) δ).1
      (tick_physics (update_idle_timer a δ) δ).2 δ) t g).1).fuel_liters = _
    rw [h1]
    unfold tick_physics
    rw [if_neg (by rw [hsP]; intro h; cases h)]
    rw [if_pos (Or.inr hsP)]
    unfold apply_stationary_physics update_fuel_consumption
    dsimp only
    rw [if_neg (by rw [hsP]; intro h; cases h.1), if_neg (by rw [hsP]; intro h; cases h)]
    unfold tick_arrivals
    rw [if_neg (by rw [hsP]; intro h; cases h)]
    show pyMax 0 (a.fuel_liters - 0) = a.fuel_liters
    rw [pyMax_eq, sub_zero]
    exact max_eq_right hfuel

/-! ### Claim theorems -/

/-- C3: for a well-formed `VehicleAgent`, `tick` raises `ValueError`
("delta_time_seconds must be positive") exactly when `delta_time_seconds ≤ 0`,
and on that error the caller-observable state is unchanged — no field of the
vehicle is modified (the validation precedes every mutation in the source). -/
theorem tick_invalid_argument_iff (a : VehicleAgent) (t : ℚ) (δ : ℤ) (g : RandGen)
    (hcap : 0 < a.tank_capacity_liters) (hm : 0 < a.mileage_kmpl) :
    ((∃ r, tick a t δ g = .ok r) ↔ 0 < δ)
    ∧ (δ ≤ 0 →
        tick a t δ g = .error "delta_time_seconds must be positive"
        ∧ tick_caught a t δ g = (a, none, g)) := by
  constructor
  · constructor
    · rintro ⟨r, hr⟩
      by_contra h
      push_neg at h
      unfold tick at hr
      rw [if_pos h] at hr
      cases hr
    · intro hδ
      unfold tick
      rw [if_neg (not_le.mpr hδ)]
      exact ⟨_, rfl⟩
  · intro hδ
    have herr : tick a t δ g = .error "delta_time_seconds must be positive" := by
      unfold tick
      rw [if_pos hδ]
    refine ⟨herr, ?_⟩
    unfold tick_caught
    rw [herr]

/-- Witness for C3 at a concrete input. -/
theorem tick_invalid_argument_iff_witness :
    tick (mkVehicle "V-A-001" default) 0 0 [] = .error "delta_time_seconds must be positive"
    ∧ tick_caught (mkVehicle "V-A-001" default) 0 0 [] = (mkVehicle "V-A-001" default, none, []) :=
  (tick_invalid_argument_iff (mkVehicle "V-A-001" default) 0 0 []
    (by norm_num [mkVehicle]) (by norm_num [mkVehicle])).2 le_rfl

/-- C10: a vehicle whose stored route is empty emits a telemetry reading at
latitude 0.0 / longitude 0.0, and `assign_new_trip` with fewer than 2 nodes
clears the stored route (so such a vehicle is in exactly this situation). -/
theorem tick_empty_route_zero_coordinates (a : VehicleAgent) (t : ℚ) (δ : ℤ)
    (g : RandGen) (hroute : a.route = []) (hδ : 0 < δ) :
    (∃ a' rd ev g', tick a t δ g = .ok (a', rd, ev, g')
      ∧ rd.latitude = 0 ∧ rd.longitude = 0)
    ∧ (∀ r s, r.length < 2 → (assign_new_trip a r s).route = []) := by
  constructor
  · cases htick : tick a t δ g with
    | error e =>
      exfalso
      unfold tick at htick
      rw [if_neg (not_le.mpr hδ)] at htick
      cases htick
    | ok r =>
      obtain ⟨a', rd, ev, g'⟩ := r
      refine ⟨a', rd, ev, g', rfl, ?_⟩
      have hroute' : a'.route = [] :=
        (tick_route a t δ g a' rd ev g' htick).trans hroute
      rw [tick_reading a t δ g a' rd ev g' htick]
      unfold create_telemetry_reading calculate_coordinates
      rw [hroute']
      simp [pyRound_zero]
  · intro r s hr
    unfold assign_new_trip
    rw [if_pos hr]

lemma handle_intermediate_arrival_spec (a : VehicleAgent) (t : ℚ) (g : RandGen) :
    ((handle_intermediate_arrival a t g).1).route = a.route
    ∧ ((handle_intermediate_arrival a t g).1).current_edge_index = a.current_edge_index + 1
    ∧ ((handle_intermediate_arrival a t g).1).progress_on_edge = 0
    ∧ (g.headD 0 < a.behavioral_profile.p_stop_at_node →
        ((handle_intermediate_arrival a t g).1).state = .IDLING)
    ∧ (¬ g.headD 0 < a.behavioral_profile.p_stop_at_node →
        ((handle_intermediate_arrival a t g).1).state = a.state
        ∧ (handle_intermediate_arrival a t g).2.1 = none) := by
  unfold handle_intermediate_arrival initiate_stop nextRandint nextRand
    advance_to_next_edge
  dsimp only
  by_cases hstop : g.headD 0 < a.behavioral_profile.p_stop_at_node
  · rw [if_pos hstop]
    by_cases htheft : g.tail.tail.headD 0 < a.behavioral_profile.p_theft_given_stop
    · rw [if_pos htheft]
      refine ⟨by simp, by simp, by simp, fun _ => by simp, fun h => absurd hstop h⟩
    · rw [if_neg htheft]
      refine ⟨rfl, rfl, rfl, fun _ => rfl, fun h => absurd hstop h⟩
  · rw [if_neg hstop]
    refine ⟨rfl, rfl, rfl, fun h => absurd h hstop, fun _ => ⟨rfl, rfl⟩⟩

lemma calculate_coordinates_interp (a : VehicleAgent)
    (h1 : a.route ≠ [])
    (h2 : (a.current_edge_index : ℤ) < (a.route.length : ℤ) - 1)
    (h3 : a.progress_on_edge = 0) :
    calculate_coordinates a =
      ((a.route.getD a.current_edge_index (0, 0)).2,
       (a.route.getD a.current_edge_index (0, 0)).1) := by
  unfold calculate_coordinates
  rw [if_neg (by rw [not_or]; exact ⟨h1, by omega⟩)]
  dsimp only
  rw [h3]
  norm_num [pyMin]

/-- C2: on arrival at an intermediate (non-final) node the agent advances to
the next edge — `current_edge_index + 1`, `progress_on_edge` reset to 0 —
strictly before the stop probability is sampled, so the post-tick state sits at
the start of the next edge whether the stop draw idles the vehicle or not, and
the emitted reading's coordinates are those of the passed-through node (the
start of the next edge). -/
theorem intermediate_arrival_advances_edge_before_stop
    (a : VehicleAgent) (t : ℚ) (δ : ℤ) (g : RandGen)
    (hδ : 0 < δ) (hs : a.state = .DRIVING) (har : has_active_route a)
    (harr : POSITION_TOLERANCE ≤ driving_progress a δ)
    (hint : (a.current_edge_index : ℤ) < (a.route.length : ℤ) - 2) :
    ∃ a' rd ev g', tick a t δ g = .ok (a', rd, ev, g')
      ∧ a'.current_edge_index = a.current_edge_index + 1
      ∧ a'.progress_on_edge = 0
      ∧ (g.headD 0 < a.behavioral_profile.p_stop_at_node → a'.state = .IDLING)
      ∧ (¬ g.headD 0 < a.behavioral_profile.p_stop_at_node → a'.state = .DRIVING)
      ∧ rd.latitude = pyRound (a.route.getD (a.current_edge_index + 1) (0, 0)).2 6
      ∧ rd.longitude = pyRound (a.route.getD (a.current_edge_index + 1) (0, 0)).1 6 := by
  rw [tick_ok_eq a t δ g hδ, update_idle_timer_of_driving a δ hs,
    tick_physics_of_driving a δ hs har]
  dsimp only
  set A3 := update_fuel_consumption
    { a with progress_on_edge := driving_progress a δ } (driving_distance a δ) δ with hA3
  have hstate3 : A3.state = VehicleState.DRIVING := hs
  have hreach : has_reached_node A3 := harr
  have hfinal : ¬ is_at_final_destination A3 := by
    unfold is_at_final_destination
    rw [hA3]
    simp only [update_fuel_consumption_idx, update_fuel_consumption_route_simp]
    omega
  unfold tick_arrivals
  rw [if_pos hstate3]
  unfold check_and_handle_arrivals
  rw [if_neg (not_not_intro hreach), if_neg hfinal]
  obtain ⟨hroute4, hidx4, hprog4, hidle4, hdrive4⟩ :=
    handle_intermediate_arrival_spec A3 t g
  have hroute3 : A3.route = a.route := by rw [hA3]; rfl
  have hidx3 : A3.current_edge_index = a.current_edge_index := by rw [hA3]; rfl
  have hprof3 : A3.behavioral_profile = a.behavioral_profile := by rw [hA3]; rfl
  refine ⟨_, _, _, _, rfl, ?_, hprog4, ?_, ?_, ?_, ?_⟩
  · rw [hidx4, hidx3]
  · intro h
    exact hidle4 (by rw [hprof3]; exact h)
  · intro h
    rw [(hdrive4 (by rw [hprof3]; exact h)).1, hstate3]
  all_goals {
    have hcoords := calculate_coordinates_interp (handle_intermediate_arrival A3 t g).1
      (by rw [hroute4, hroute3]; intro he; rw [he] at hint; simp at hint; omega)
      (by rw [hroute4, hroute3, hidx4, hidx3]; push_cast; omega)
      hprog4
    rw [hroute4, hroute3, hidx4, hidx3] at hcoords
    unfold create_telemetry_reading
    rw [hcoords]
  }

/-- Witness for C2: the spec's end-to-end example route at the intermediate
node, with a draw stream that triggers the stop. -/
theorem intermediate_arrival_advances_edge_before_stop_witness :
    (0 : ℤ) < 60 ∧ exampleVehicle.state = .DRIVING ∧ has_active_route exampleVehicle
    ∧ POSITION_TOLERANCE ≤ driving_progress exampleVehicle 60
    ∧ (exampleVehicle.current_edge_index : ℤ) < (exampleVehicle.route.length : ℤ) - 2
    ∧ ∃ a' rd ev g', tick exampleVehicle 0 60 exampleGen = .ok (a', rd, ev, g')
      ∧ a'.current_edge_index = exampleVehicle.current_edge_index + 1
      ∧ a'.progress_on_edge = 0
      ∧ (exampleGen.headD 0 < exampleVehicle.behavioral_profile.p_stop_at_node →
          a'.state = .IDLING)
      ∧ (¬ exampleGen.headD 0 < exampleVehicle.behavioral_profile.p_stop_at_node →
          a'.state = .DRIVING)
      ∧ rd.latitude =
          pyRound (exampleVehicle.route.getD (exampleVehicle.current_edge_index + 1) (0, 0)).2 6
      ∧ rd.longitude =
          pyRound (exampleVehicle.route.getD (exampleVehicle.current_edge_index + 1) (0, 0)).1 6 :=
  ⟨by norm_num, by decide, by decide,
   by norm_num [driving_progress, driving_distance, exampleVehicle, assign_new_trip,
     mkVehicle, pyMin, POSITION_TOLERANCE, EDGE_LENGTH_KM],
   by decide,
   intermediate_arrival_advances_edge_before_stop exampleVehicle 0 60 exampleGen
     (by norm_num) (by decide) (by decide)
     (by norm_num [driving_progress, driving_distance, exampleVehicle, assign_new_trip,
       mkVehicle, pyMin, POSITION_TOLERANCE, EDGE_LENGTH_KM])
     (by decide)⟩

/-- C1: when a Driving vehicle arrives at an intermediate node, an anomaly
event is produced if and only if the stop draw and then the theft draw both
fire (so theft is evaluated at most once per stop, and at most one event per
tick is possible); when theft fires, the theft percentage is the uniform draw
over `[theft_pct_min, theft_pct_max]` and lies in that range, the stolen liters
are that percentage of tank capacity, the resulting fuel is the pre-theft fuel
minus the stolen liters floored at 0, and the emitted FUEL_THEFT event records
the stolen liters, the fuel percentage before and after, and the theft
percentage. -/
theorem fuel_theft_spec
    (a : VehicleAgent) (t : ℚ) (δ : ℤ) (g : RandGen) (pct stolen fuel_mid : ℚ)
    (hδ : 0 < δ) (hs : a.state = .DRIVING) (har : has_active_route a)
    (harr : POSITION_TOLERANCE ≤ driving_progress a δ)
    (hint : (a.current_edge_index : ℤ) < (a.route.length : ℤ) - 2)
    (hminmax : a.behavioral_profile.theft_pct_min ≤ a.behavioral_profile.theft_pct_max)
    (hu : 0 ≤ g.tail.tail.tail.headD 0 ∧ g.tail.tail.tail.headD 0 < 1)
    (hpct : pct = a.behavioral_profile.theft_pct_min
      + (a.behavioral_profile.theft_pct_max - a.behavioral_profile.theft_pct_min)
        * g.tail.tail.tail.headD 0)
    (hstolen : stolen = pct / 100 * a.tank_capacity_liters)
    (hmid : fuel_mid = (update_fuel_consumption
      { a with progress_on_edge := driving_progress a δ }
      (driving_distance a δ) δ).fuel_liters) :
    ∃ a' rd ev g', tick a t δ g = .ok (a', rd, ev, g')
      ∧ (ev.isSome = true ↔
          (g.headD 0 < a.behavioral_profile.p_stop_at_node
           ∧ g.tail.tail.headD 0 < a.behavioral_profile.p_theft_given_stop))
      ∧ (g.headD 0 < a.behavioral_profile.p_stop_at_node →
         g.tail.tail.headD 0 < a.behavioral_profile.p_theft_given_stop →
          a.behavioral_profile.theft_pct_min ≤ pct
          ∧ pct ≤ a.behavioral_profile.theft_pct_max
          ∧ a'.fuel_liters = pyMax 0 (fuel_mid - stolen)
          ∧ ev = some
              { vehicle_id := a.vehicle_id, timestamp := t, event_type := "FUEL_THEFT",
                details :=
                  { liters_stolen := pyRound stolen 2,
                    fuel_pct_before := pyRound (fuel_mid / a.tank_capacity_liters * 100) 2,
                    fuel_pct_after :=
                      pyRound (pyMax 0 (fuel_mid - stolen) / a.tank_capacity_liters * 100) 2,
                    theft_percentage := pyRound pct 2 } }) := by
  rw [tick_ok_eq a t δ g hδ, update_idle_timer_of_driving a δ hs,
    tick_physics_of_driving a δ hs har]
  dsimp only
  set A3 := update_fuel_consumption
    { a with progress_on_edge := driving_progress a δ } (driving_distance a δ) δ with hA3
  have hstate3 : A3.state = VehicleState.DRIVING := hs
  have hreach : has_reached_node A3 := harr
  have hfinal : ¬ is_at_final_destination A3 := by
    unfold is_at_final_destination
    rw [hA3]
    simp only [update_fuel_consumption_idx, update_fuel_consumption_route_simp]
    omega
  unfold tick_arrivals
  rw [if_pos hstate3]
  unfold check_and_handle_arrivals
  rw [if_neg (not_not_intro hreach), if_neg hfinal]
  unfold handle_intermediate_arrival advance_to_next_edge nextRand
  dsimp only
  by_cases hstop : g.headD 0 < A3.behavioral_profile.p_stop_at_node
  · rw [if_pos hstop]
    unfold initiate_stop nextRandint nextRand
    dsimp only
    by_cases htheft : g.tail.tail.headD 0 < A3.behavioral_profile.p_theft_given_stop
    · rw [if_pos htheft]
      unfold perform_fuel_theft nextUniform nextRand fuel_percentage
      dsimp only
      refine ⟨_, _, _, _, rfl, iff_of_true rfl ⟨hstop, htheft⟩, fun _ _ => ?_⟩
      have hlb : a.behavioral_profile.theft_pct_min ≤ pct := by
        rw [hpct]
        nlinarith [mul_nonneg (sub_nonneg.mpr hminmax) hu.1]
      have hub : pct ≤ a.behavioral_profile.theft_pct_max := by
        rw [hpct]
        nlinarith [mul_le_of_le_one_right (sub_nonneg.mpr hminmax) (le_of_lt hu.2)]
      refine ⟨hlb, hub, ?_, ?_⟩
      · rw [hstolen, hpct, hmid]
        rfl
      · rw [hstolen, hpct, hmid]
        rfl
    · rw [if_neg htheft]
      exact ⟨_, _, _, _, rfl, iff_of_false (by simp) (fun h => htheft h.2),
        fun _ h => absurd h htheft⟩
  · rw [if_neg hstop]
    exact ⟨_, _, _, _, rfl, iff_of_false (by simp) (fun h => hstop h.1),
      fun h _ => absurd h hstop⟩

/-- Witness for C1: the example vehicle at the intermediate node with a draw
stream firing both the stop and the theft; the uniform draw 1/2 gives an 8%
theft of the 500 L tank (40 L) against post-consumption fuel 1999/4 L. -/
theorem fuel_theft_spec_witness :
    ∃ a' rd ev g', tick exampleVehicle 0 60 exampleGen = .ok (a', rd, ev, g')
      ∧ (ev.isSome = true ↔
          (exampleGen.headD 0 < exampleVehicle.behavioral_profile.p_stop_at_node
           ∧ exampleGen.tail.tail.headD 0 < exampleVehicle.behavioral_profile.p_theft_given_stop))
      ∧ (exampleGen.headD 0 < exampleVehicle.behavioral_profile.p_stop_at_node →
         exampleGen.tail.tail.headD 0 < exampleVehicle.behavioral_profile.p_theft_given_stop →
          exampleVehicle.behavioral_profile.theft_pct_min ≤ 8
          ∧ (8 : ℚ) ≤ exampleVehicle.behavioral_profile.theft_pct_max
          ∧ a'.fuel_liters = pyMax 0 (1999/4 - 40)
          ∧ ev = some
              { vehicle_id := exampleVehicle.vehicle_id, timestamp := 0,
                event_type := "FUEL_THEFT",
                details :=
                  { liters_stolen := pyRound 40 2,
                    fuel_pct_before :=
                      pyRound (1999/4 / exampleVehicle.tank_capacity_liters * 100) 2,
                    fuel_pct_after :=
                      pyRound (pyMax 0 (1999/4 - 40)
                        / exampleVehicle.tank_capacity_liters * 100) 2,
                    theft_percentage := pyRound 8 2 } }) :=
  fuel_theft_spec exampleVehicle 0 60 exampleGen 8 40 (1999/4)
    (by norm_num) (by decide) (by decide)
    (by norm_num [driving_progress, driving_distance, exampleVehicle, assign_new_trip,
      mkVehicle, pyMin, POSITION_TOLERANCE, EDGE_LENGTH_KM])
    (by decide)
    (by norm_num [exampleVehicle, assign_new_trip, mkVehicle, exampleProfile])
    (by norm_num [exampleGen])
    (by norm_num [exampleVehicle, assign_new_trip, mkVehicle, exampleProfile, exampleGen])
    (by norm_num [exampleVehicle, assign_new_trip, mkVehicle])
    (by norm_num [update_fuel_consumption, driving_progress, driving_distance,
      exampleVehicle, assign_new_trip, mkVehicle, pyMin, pyMax, EDGE_LENGTH_KM])

/-- C5: across a tick fuel is monotonically non-increasing; a Driving tick
without node arrival consumes `distance / mileage_kmpl`, an Idling tick whose
timer does not expire consumes the idle rate pro-rated over the tick, a Parked
tick leaves fuel exactly unchanged; and `refuel` restores fuel to the full tank
capacity (fuel percentage exactly 100). -/
theorem fuel_monotone_and_refuel
    (a : VehicleAgent) (t : ℚ) (δ : ℤ) (g : RandGen)
    (hδ : 0 < δ) (hcap : 0 < a.tank_capacity_liters) (hm : 0 < a.mileage_kmpl)
    (hfuel : 0 ≤ a.fuel_liters) (hspeed : 0 ≤ a.speed_kph)
    (hmin : 0 ≤ a.behavioral_profile.theft_pct_min)
    (hminmax : a.behavioral_profile.theft_pct_min ≤ a.behavioral_profile.theft_pct_max)
    (hg : GoodGen g) :
    ((tick_caught a t δ g).1).fuel_liters ≤ a.fuel_liters
    ∧ (a.state = .DRIVING → has_active_route a →
        driving_progress a δ < POSITION_TOLERANCE →
        ((tick_caught a t δ g).1).fuel_liters
          = pyMax 0 (a.fuel_liters - driving_distance a δ / a.mileage_kmpl))
    ∧ (a.state = .IDLING → δ < a.state_timer_seconds →
        ((tick_caught a t δ g).1).fuel_liters
          = pyMax 0 (a.fuel_liters - IDLE_CONSUMPTION_LPH * ((δ : ℚ) / 3600)))
    ∧ (a.state = .PARKED → ((tick_caught a t δ g).1).fuel_liters = a.fuel_liters)
    ∧ (refuel a).fuel_liters = a.tank_capacity_liters
    ∧ fuel_percentage (refuel a) = 100 := by
  obtain ⟨hc1, hm1, hp1⟩ := update_idle_timer_config a δ
  obtain ⟨hc2, hm2, hp2⟩ := tick_physics_config (update_idle_timer a δ) δ
  refine ⟨?_, ?_, ?_, ?_, rfl, ?_⟩
  · rw [tick_caught_fst a t δ g hδ]
    have hfuel1 : ((tick_physics (update_idle_timer a δ) δ).1).fuel_liters
        = a.fuel_liters :=
      (tick_physics_fuel (update_idle_timer a δ) δ).trans (update_idle_timer_fuel a δ)
    have hdist : 0 ≤ (tick_physics (update_idle_timer a δ) δ).2 :=
      tick_physics_dist_nonneg (update_idle_timer a δ) δ
        (update_idle_timer_speed a δ hspeed) hδ
    have hA3m := update_fuel_consumption_le (tick_physics (update_idle_timer a δ) δ).1
      (tick_physics (update_idle_timer a δ) δ).2 δ (by rw [hfuel1]; exact hfuel)
      (by rw [hm2, hm1]; exact hm) hdist hδ
    have hAr := tick_arrivals_fuel_le
      (update_fuel_consumption (tick_physics (update_idle_timer a δ) δ).1
        (tick_physics (update_idle_timer a δ) δ).2 δ) t g
      hA3m.2
      (by rw [update_fuel_consumption_capacity, hc2, hc1]; exact le_of_lt hcap)
      (by rw [update_fuel_consumption_profile, hp2, hp1]; exact hmin)
      (by rw [update_fuel_consumption_profile, hp2, hp1]; exact hminmax)
      hg
    calc ((tick_arrivals (update_fuel_consumption
            (tick_physics (update_idle_timer a δ) δ).1
            (tick_physics (update_idle_timer a δ) δ).2 δ) t g).1).fuel_liters
        ≤ _ := hAr.1
      _ ≤ _ := hA3m.1
      _ = a.fuel_liters := hfuel1
  · intro hsD harD hltD
    rw [tick_caught_fst a t δ g hδ, update_idle_timer_of_driving a δ hsD,
      tick_physics_of_driving a δ hsD harD]
    set A3 := update_fuel_consumption
      { a with progress_on_edge := driving_progress a δ } (driving_distance a δ) δ
      with hA3
    have hst : A3.state = VehicleState.DRIVING := hsD
    have hnr : ¬ has_reached_node A3 := not_le.mpr hltD
    unfold tick_arrivals
    rw [if_pos hst]
    unfold check_and_handle_arrivals
    rw [if_pos hnr]
    show A3.fuel_liters = _
    rw [hA3]
    unfold update_fuel_consumption
    dsimp only
    by_cases hd : 0 < driving_distance a δ
    · rw [if_pos ⟨hsD, hd⟩]
    · have hd0 : driving_distance a δ = 0 :=
        le_antisymm (not_lt.mp hd) (by unfold driving_distance; positivity)
      rw [if_neg (fun h => hd h.2), hd0]
      rw [if_neg (by rw [hsD]; intro h; cases h)]
      norm_num
  · intro hsI htimer
    have hmx : max 0 (a.state_timer_seconds - δ) = a.state_timer_seconds - δ :=
      max_eq_right (by omega)
    have h1 : update_idle_timer a δ =
        { a with state_timer_seconds := a.state_timer_seconds - δ } := by
      unfold update_idle_timer
      rw [if_pos ⟨hsI, by omega⟩]
      dsimp only
      rw [hmx, if_neg (by omega)]
    rw [tick_caught_fst a t δ g hδ, h1]
    unfold tick_physics
    rw [if_neg (by rw [show ({ a with state_timer_seconds := a.state_timer_seconds - δ } : VehicleAgent).state = a.state from rfl, hsI]; intro h; cases h)]
    rw [if_pos (Or.inl (show ({ a with state_timer_seconds := a.state_timer_seconds - δ } : VehicleAgent).state = .IDLING from hsI))]
    unfold apply_stationary_physics update_fuel_consumption
    dsimp only
    rw [if_neg (by rw [hsI]; intro h; cases h.1), if_pos hsI]
    unfold tick_arrivals
    rw [if_neg (by rw [hsI]; intro h; cases h)]
  · intro hsP
    rw [tick_caught_fst a t δ g hδ]
    have h1 : update_idle_timer a δ = a := by
      unfold update_idle_timer
      rw [if_neg (by rw [hsP]; intro h; cases h.1)]
    rw [h1]
    unfold tick_physics
    rw [if_neg (by rw [hsP]; intro h; cases h)]
    rw [if_pos (Or.inr hsP)]
    unfold apply_stationary_physics update_fuel_consumption
    dsimp only
    rw [if_neg (by rw [hsP]; intro h; cases h.1), if_neg (by rw [hsP]; intro h; cases h)]
    unfold tick_arrivals
    rw [if_neg (by rw [hsP]; intro h; cases h)]
    show pyMax 0 (a.fuel_liters - 0) = a.fuel_liters
    rw [pyMax_eq]
    rw [sub_zero]
    exact max_eq_right hfuel
  · unfold fuel_percentage refuel
    dsimp only
    rw [div_self (ne_of_gt hcap)]
    norm_num

/-- Witness for C5 at the example vehicle and a well-formed draw stream. -/
theorem fuel_monotone_and_refuel_witness :
    ((tick_caught exampleVehicle 0 60 exampleGen).1).fuel_liters
        ≤ exampleVehicle.fuel_liters
    ∧ (exampleVehicle.state = .DRIVING → has_active_route exampleVehicle →
        driving_progress exampleVehicle 60 < POSITION_TOLERANCE →
        ((tick_caught exampleVehicle 0 60 exampleGen).1).fuel_liters
          = pyMax 0 (exampleVehicle.fuel_liters
              - driving_distance exampleVehicle 60 / exampleVehicle.mileage_kmpl))
    ∧ (exampleVehicle.state = .IDLING → 60 < exampleVehicle.state_timer_seconds →
        ((tick_caught exampleVehicle 0 60 exampleGen).1).fuel_liters
          = pyMax 0 (exampleVehicle.fuel_liters
              - IDLE_CONSUMPTION_LPH * (((60 : ℤ) : ℚ) / 3600)))
    ∧ (exampleVehicle.state = .PARKED →
        ((tick_caught exampleVehicle 0 60 exampleGen).1).fuel_liters
          = exampleVehicle.fuel_liters)
    ∧ (refuel exampleVehicle).fuel_liters = exampleVehicle.tank_capacity_liters
    ∧ fuel_percentage (refuel exampleVehicle) = 100 :=
  fuel_monotone_and_refuel exampleVehicle 0 60 exampleGen
    (by norm_num)
    (by norm_num [exampleVehicle, assign_new_trip, mkVehicle])
    (by norm_num [exampleVehicle, assign_new_trip, mkVehicle])
    (by norm_num [exampleVehicle, assign_new_trip, mkVehicle])
    (by norm_num [exampleVehicle, assign_new_trip, mkVehicle])
    (by norm_num [exampleVehicle, assign_new_trip, mkVehicle, exampleProfile])
    (by norm_num [exampleVehicle, assign_new_trip, mkVehicle, exampleProfile])
    (by
      intro u hu
      simp only [exampleGen, List.mem_cons, List.not_mem_nil, or_false] at hu
      rcases hu with h | h | h | h <;> subst h <;> norm_num)

lemma inv_runOps (ops : List Op) : ∀ (a : VehicleAgent) (g : RandGen),
    WFagent a → Inv a → GoodGen g → (∀ op ∈ ops, ValidOp op) →
    Inv (runOps ops a g).1 := by
  induction ops with
  | nil => exact fun a g _ hinv _ _ => hinv
  | cons op rest ih =>
    intro a g hwf hinv hg hops
    have hop : ValidOp op := hops op (List.mem_cons_self _ _)
    have hrest : ∀ o ∈ rest, ValidOp o :=
      fun o ho => hops o (List.mem_cons_of_mem _ ho)
    show Inv (runOps rest (apply_op (a, g) op).1 (apply_op (a, g) op).2).1
    cases op with
    | assign r sp =>
      obtain ⟨hc, hm, hp⟩ := assign_new_trip_config a r sp
      exact ih (assign_new_trip a r sp) g
        ⟨by rw [hc]; exact hwf.1, by rw [hm]; exact hwf.2.1,
         by rw [hp]; exact hwf.2.2.1, by rw [hp]; exact hwf.2.2.2⟩
        (inv_assign_new_trip a r sp hinv hop) hg hrest
    | refuelOp =>
      obtain ⟨h1, h2, h3, h4, h5, h6, h7⟩ := hinv
      exact ih (refuel a) g hwf
        ⟨le_of_lt hwf.1, le_rfl, h3, h4, h5, h6, le_rfl⟩ hg hrest
    | tickOp t δ =>
      obtain ⟨hc, hm, hp⟩ := tick_caught_config a t δ g
      exact ih ((tick_caught a t δ g).1) ((tick_caught a t δ g).2.2)
        ⟨by rw [hc]; exact hwf.1, by rw [hm]; exact hwf.2.1,
         by rw [hp]; exact hwf.2.2.1, by rw [hp]; exact hwf.2.2.2⟩
        (inv_tick_caught a t δ g hwf hinv hg) (tick_caught_gen a t δ g hg) hrest

/-- C4: for a well-formed vehicle and well-formed operations (non-negative
assignment speed, positive tick delta) over a well-formed random source, every
sequence of `assign_new_trip` / `refuel` / `tick` calls preserves the state
invariants — fuel within [0, tank capacity], progress within [0,1], edge index
within [0, route length - 1] whenever a route of at least 2 nodes is assigned,
and a non-negative idle countdown — and a Parked vehicle's fuel is unchanged
by `tick`. -/
theorem vehicle_invariants_preserved
    (ops : List Op) (a : VehicleAgent) (g : RandGen)
    (hwf : WFagent a) (hinv : Inv a) (hg : GoodGen g)
    (hops : ∀ op ∈ ops, ValidOp op) :
    Inv (runOps ops a g).1
    ∧ (∀ a' t' δ' g', a'.state = .PARKED → 0 ≤ a'.fuel_liters →
        ((tick_caught a' t' δ' g').1).fuel_liters = a'.fuel_liters) :=
  ⟨inv_runOps ops a g hwf hinv hg hops,
   fun a' t' δ' g' => parked_tick_fuel a' t' δ' g'⟩

/-- Witness for C4: the default vehicle through an assign / tick / refuel /
tick sequence on the example draws. -/
theorem vehicle_invariants_preserved_witness :
    Inv (runOps
      [Op.assign [(0, 0), (1, 0), (2, 0)] 60, Op.tickOp 0 60, Op.refuelOp,
        Op.tickOp 60 60]
      (mkVehicle "V-A-001" exampleProfile) exampleGen).1
    ∧ (∀ a' t' δ' g', a'.state = .PARKED → 0 ≤ a'.fuel_liters →
        ((tick_caught a' t' δ' g').1).fuel_liters = a'.fuel_liters) :=
  vehicle_invariants_preserved _ (mkVehicle "V-A-001" exampleProfile) exampleGen
    (by refine ⟨?_, ?_, ?_, ?_⟩ <;> norm_num [mkVehicle, exampleProfile])
    (by refine ⟨?_, ?_, ?_, ?_, ?_, ?_, ?_⟩ <;> norm_num [mkVehicle])
    (by
      intro u hu
      simp only [exampleGen, List.mem_cons, List.not_mem_nil, or_false] at hu
      rcases hu with h | h | h | h <;> subst h <;> norm_num)
    (by
      intro op hop
      simp only [List.mem_cons, List.not_mem_nil, or_false] at hop
      rcases hop with h | h | h | h <;> subst h <;> norm_num [ValidOp])

lemma GoodGen.drop {g : RandGen} (h : GoodGen g) (k : ℕ) : GoodGen (g.drop k) :=
  fun u hu => h u (List.mem_of_mem_drop hu)

lemma sampleTwo_spec (nodes : List Node) (g : RandGen)
    (hnodup : nodes.Nodup) (hlen : 2 ≤ nodes.length) (hg : GoodGen g) :
    (sampleTwo nodes g).1 ∈ nodes ∧ (sampleTwo nodes g).2.1 ∈ nodes
    ∧ (sampleTwo nodes g).1 ≠ (sampleTwo nodes g).2.1 := by
  unfold sampleTwo nextRand
  dsimp only
  set u1 := g.headD 0 with hu1
  set u2 := g.tail.headD 0 with hu2
  have h1 : 0 ≤ u1 ∧ u1 < 1 := ⟨hg.headD_nonneg, hg.headD_lt_one⟩
  have h2 : 0 ≤ u2 ∧ u2 < 1 := ⟨hg.tail.headD_nonneg, hg.tail.headD_lt_one⟩
  set n := nodes.length with hn
  have hn0 : (0 : ℚ) < (n : ℚ) := by
    have : (2 : ℚ) ≤ (n : ℚ) := by exact_mod_cast hlen
    linarith
  have hi : (⌊u1 * (n : ℚ)⌋).toNat < n := by
    have hflt : ⌊u1 * (n : ℚ)⌋ < (n : ℤ) := by
      apply Int.floor_lt.mpr
      push_cast
      nlinarith [h1.1, h1.2]
    omega
  have hn2 : (2 : ℚ) ≤ (n : ℚ) := by exact_mod_cast hlen
  have hj0 : (⌊u2 * ((n : ℚ) - 1)⌋).toNat < n - 1 := by
    have hflt : ⌊u2 * ((n : ℚ) - 1)⌋ < (n : ℤ) - 1 := by
      apply Int.floor_lt.mpr
      push_cast
      nlinarith [h2.1, h2.2, hn2]
    omega
  set i := (⌊u1 * (n : ℚ)⌋).toNat
  set j0 := (⌊u2 * ((n : ℚ) - 1)⌋).toNat
  have hjlt : (if i ≤ j0 then j0 + 1 else j0) < n := by
    split <;> omega
  have hne : i ≠ (if i ≤ j0 then j0 + 1 else j0) := by
    split <;> omega
  rw [List.getD_eq_getElem nodes (0, 0) hi, List.getD_eq_getElem nodes (0, 0) hjlt]
  refine ⟨List.getElem_mem hi, List.getElem_mem hjlt, fun hcontra => ?_⟩
  exact hne ((hnodup.getElem_inj_iff).mp hcontra)

lemma get_random_route_loop_none (w : GridWorld) (m : ℕ) :
    ∀ (n : ℕ) (g : RandGen), (get_random_route_loop w m n g).1 = none ↔
      ∀ r ∈ route_candidates w n g, r.length < m := by
  intro n
  induction n with
  | zero =>
    intro g
    simp [get_random_route_loop, route_candidates]
  | succ n ih =>
    intro g
    unfold get_random_route_loop route_candidates
    dsimp only
    split
    · rename_i hlong
      simp only [List.mem_cons]
      constructor
      · intro h
        cases h
      · intro h
        exact absurd hlong (not_le.mpr (h _ (Or.inl rfl)))
    · rename_i hshort
      simp only [List.mem_cons]
      rw [ih]
      constructor
      · rintro h r (rfl | hr)
        · exact not_le.mp hshort
        · exact h r hr
      · intro h r hr
        exact h r (Or.inr hr)

lemma get_random_route_loop_some (w : GridWorld) (m : ℕ) :
    ∀ (n : ℕ) (g r : _) (g' : RandGen),
      get_random_route_loop w m n g = (some r, g') →
      m ≤ r.length ∧ ∃ k : ℕ,
        r = w.sp (sampleTwo w.nodes (g.drop k)).1 (sampleTwo w.nodes (g.drop k)).2.1 := by
  intro n
  induction n with
  | zero =>
    intro g r g' h
    simp [get_random_route_loop] at h
  | succ n ih =>
    intro g r g' h
    unfold get_random_route_loop at h
    dsimp only at h
    split at h
    · rename_i hlong
      simp only [Prod.mk.injEq, Option.some.injEq] at h
      obtain ⟨hr, -⟩ := h
      subst hr
      exact ⟨hlong, 0, rfl⟩
    · obtain ⟨h1, k, hk⟩ := ih _ _ _ h
      refine ⟨h1, 2 + k, ?_⟩
      have : (sampleTwo w.nodes g).2.2 = g.drop 2 := by
        unfold sampleTwo nextRand
        simp [List.drop_drop, ← List.drop_one]
      rw [this, List.drop_drop] at hk
      rw [hk]

/-- C6: `get_random_route` never returns a route shorter than `min_distance`:
any returned route is the shortest-path result for two distinct nodes sampled
from the node list, with node count at least `min_distance`; and it returns
`None` exactly when all 10 bounded sampling attempts produced too-short
routes. -/
theorem get_random_route_spec (w : GridWorld) (m : ℕ) (g : RandGen)
    (hnodup : w.nodes.Nodup) (hlen : 2 ≤ w.nodes.length) (hg : GoodGen g) :
    (∀ r g', get_random_route w m g = (some r, g') →
        m ≤ r.length
        ∧ ∃ x y, x ∈ w.nodes ∧ y ∈ w.nodes ∧ x ≠ y ∧ r = w.sp x y)
    ∧ ((get_random_route w m g).1 = none ↔
        ∀ r ∈ route_candidates w 10 g, r.length < m) := by
  constructor
  · intro r g' h
    obtain ⟨h1, k, hk⟩ := get_random_route_loop_some w m 10 g r g' h
    obtain ⟨hx, hy, hxy⟩ := sampleTwo_spec w.nodes (g.drop k) hnodup hlen (hg.drop k)
    exact ⟨h1, _, _, hx, hy, hxy, hk⟩
  · exact get_random_route_loop_none w m 10 g

/-- Witness for C6 on the 2-node example world. -/
theorem get_random_route_spec_witness :
    (∀ r g', get_random_route exampleWorld 1 [] = (some r, g') →
        1 ≤ r.length
        ∧ ∃ x y, x ∈ exampleWorld.nodes ∧ y ∈ exampleWorld.nodes ∧ x ≠ y
          ∧ r = exampleWorld.sp x y)
    ∧ ((get_random_route exampleWorld 1 []).1 = none ↔
        ∀ r ∈ route_candidates exampleWorld 10 [], r.length < 1) :=
  get_random_route_spec exampleWorld 1 []
    (by norm_num [exampleWorld, List.nodup_cons, Prod.ext_iff])
    (by norm_num [exampleWorld])
    (fun u hu => absurd hu (List.not_mem_nil u))

/-- Witness for C10: a freshly constructed (empty-route) vehicle. -/
theorem tick_empty_route_zero_coordinates_witness :
    (mkVehicle "V-B-001" exampleProfile).route = [] ∧ (0 : ℤ) < 60
    ∧ ((∃ a' rd ev g',
          tick (mkVehicle "V-B-001" exampleProfile) 0 60 [] = .ok (a', rd, ev, g')
          ∧ rd.latitude = 0 ∧ rd.longitude = 0)
       ∧ (∀ r s, r.length < 2 →
           (assign_new_trip (mkVehicle "V-B-001" exampleProfile) r s).route = [])) :=
  ⟨rfl, by norm_num,
   tick_empty_route_zero_coordinates (mkVehicle "V-B-001" exampleProfile) 0 60 []
     rfl (by norm_num)⟩

/-- C7: the per-tick flush sends the whole buffer to the batch sink exactly
when the buffer has reached `batch_size`, clears it only when the sink reports
success and otherwise retains every buffered reading for the next flush
trigger, and the end-of-run flush sends any readings still buffered once
more. -/
theorem buffer_flush_spec (c : SimCore) (batch_size : ℕ) (res : Bool)
    (rest : List Bool) (hsink : c.sink_results = res :: rest) :
    (batch_size ≤ c.telemetry_buffer.length →
        (flush_check batch_size c).sent_batches
            = c.sent_batches ++ [(c.telemetry_buffer, res)]
        ∧ (flush_check batch_size c).telemetry_buffer
            = (if res then [] else c.telemetry_buffer)
        ∧ (flush_check batch_size c).sink_results = rest)
    ∧ (c.telemetry_buffer.length < batch_size → flush_check batch_size c = c)
    ∧ (c.telemetry_buffer ≠ [] →
        (final_flush c).sent_batches = c.sent_batches ++ [(c.telemetry_buffer, res)])
    ∧ (c.telemetry_buffer = [] → final_flush c = c) := by
  refine ⟨?_, ?_, ?_, ?_⟩
  · intro hfull
    unfold flush_check
    rw [if_pos hfull, hsink]
    exact ⟨rfl, rfl, rfl⟩
  · intro hnot
    unfold flush_check
    rw [if_neg (not_le.mpr hnot)]
  · intro hne
    unfold final_flush
    rw [if_neg hne, hsink]
    rfl
  · intro hemp
    unfold final_flush
    rw [if_pos hemp]

/-- Witness for C7 at a concrete one-reading buffer and sink streams. -/
theorem buffer_flush_spec_witness :
    ((1 : ℕ) ≤ exampleCore.telemetry_buffer.length →
      (flush_check 1 exampleCore).sent_batches = [] ++ [([exampleReading], false)]
      ∧ (flush_check 1 exampleCore).telemetry_buffer
          = (if false then [] else [exampleReading])
      ∧ (flush_check 1 exampleCore).sink_results = [true])
    ∧ (exampleCore.telemetry_buffer.length < 1 →
        flush_check 1 exampleCore = exampleCore)
    ∧ (exampleCore.telemetry_buffer ≠ [] →
        (final_flush exampleCore).sent_batches = [] ++ [([exampleReading], false)])
    ∧ (exampleCore.telemetry_buffer = [] → final_flush exampleCore = exampleCore) :=
  buffer_flush_spec exampleCore 1 false [true] rfl

/-- C8: `create_vehicle_fleet` rejects a non-positive count or an empty
profile map with `InvalidArgument`; otherwise it creates exactly `n` vehicles,
vehicle `i` (0-based) carrying profile `i mod len(profiles)` and the id
`V-{NAME}-{i+1:03d}`; in particular 10 vehicles over two profiles alternate by
index, 5 of each. -/
theorem create_vehicle_fleet_spec :
    (∀ (n : ℤ) (profiles : List (String × BehavioralProfile)),
        n ≤ 0 ∨ profiles = [] → ∃ e, create_vehicle_fleet n profiles = .error e)
    ∧ (∀ (n : ℤ) profiles fleet, create_vehicle_fleet n profiles = .ok fleet →
        0 < n ∧ profiles ≠ [] ∧ fleet.length = n.toNat
        ∧ ∀ i, i < n.toNat →
            (fleet.getD i (mkVehicle "" default)).behavioral_profile
              = (profiles.getD (i % profiles.length) ("", default)).2
            ∧ (fleet.getD i (mkVehicle "" default)).vehicle_id
              = mkVehicleId (profiles.getD (i % profiles.length) ("", default)).1 i)
    ∧ (∀ pa pb na nb fleet,
        create_vehicle_fleet 10 [(na, pa), (nb, pb)] = .ok fleet →
        fleet.length = 10
        ∧ ∀ i, i < 10 →
            (fleet.getD i (mkVehicle "" default)).behavioral_profile
              = (if i % 2 = 0 then pa else pb)) := by
  have hmain : ∀ (n : ℤ) profiles fleet, create_vehicle_fleet n profiles = .ok fleet →
      0 < n ∧ profiles ≠ [] ∧ fleet.length = n.toNat
      ∧ ∀ i, i < n.toNat →
          (fleet.getD i (mkVehicle "" default)).behavioral_profile
            = (profiles.getD (i % profiles.length) ("", default)).2
          ∧ (fleet.getD i (mkVehicle "" default)).vehicle_id
            = mkVehicleId (profiles.getD (i % profiles.length) ("", default)).1 i := by
    intro n profiles fleet h
    unfold create_vehicle_fleet at h
    split at h
    · cases h
    · split at h
      · cases h
      · rename_i hn hp
        simp only [Except.ok.injEq] at h
        subst h
        refine ⟨not_le.mp hn, hp, by simp, ?_⟩
        intro i hi
        rw [List.getD_eq_getElem _ _ (by simpa using hi)]
        simp only [List.getElem_map, List.getElem_range]
        exact ⟨rfl, rfl⟩
  refine ⟨?_, hmain, ?_⟩
  · intro n profiles h
    unfold create_vehicle_fleet
    by_cases hn : n ≤ 0
    · rw [if_pos hn]
      exact ⟨_, rfl⟩
    · rw [if_neg hn]
      rcases h with h | h
      · exact absurd h hn
      · rw [if_pos h]
        exact ⟨_, rfl⟩
  · intro pa pb na nb fleet h
    obtain ⟨-, -, hlen, hprof⟩ := hmain 10 [(na, pa), (nb, pb)] fleet h
    refine ⟨by simpa using hlen, ?_⟩
    intro i hi
    have := (hprof i (by simpa using hi)).1
    rw [this]
    show ([(na, pa), (nb, pb)].getD (i % 2) ("", default)).2 = _
    rcases Nat.mod_two_eq_zero_or_one i with h2 | h2 <;> rw [h2] <;> simp

/-- Witness for C8: the failure case at (0, []) and the alternation of a
concrete 10-vehicle fleet over two profiles. -/
theorem create_vehicle_fleet_spec_witness :
    (∃ e, create_vehicle_fleet 0 [] = .error e)
    ∧ (exampleFleet.length = 10
       ∧ ∀ i, i < 10 →
          (exampleFleet.getD i (mkVehicle "" default)).behavioral_profile
            = (if i % 2 = 0 then exampleProfile else default)) :=
  ⟨create_vehicle_fleet_spec.1 0 [] (Or.inl le_rfl),
   create_vehicle_fleet_spec.2.2 exampleProfile default "a" "b" exampleFleet rfl⟩

lemma sim_tick_core (w : GridWorld) (cfg : SimConfig) (rt : ℚ) (s : SimState) :
    (sim_tick w cfg rt s).core = core_tick w cfg s.core := rfl

lemma sim_loop_core (w : GridWorld) (cfg : SimConfig) (rt : ℚ) (l : List ℕ) :
    ∀ s : SimState,
      (l.foldl (fun s _ => sim_tick w cfg rt s) s).core
        = l.foldl (fun c _ => core_tick w cfg c) s.core := by
  induction l with
  | nil => intro s; rfl
  | cons x xs ih =>
    intro s
    rw [List.foldl_cons, List.foldl_cons, ih (sim_tick w cfg rt s), sim_tick_core]

/-- C9 (amended): given the same configuration, the same random draw sequence,
and the same simulation start timestamp, a full run is exactly reproducible —
the telemetry and anomaly logs do not depend on the wall-clock readings that
drive the real-time pacing, so two such runs produce identical logs. -/
theorem run_simulation_reproducible (w : GridWorld) (vehicles : List VehicleAgent)
    (cfg : SimConfig) (health : Bool) (sink_results : List Bool) (g : RandGen)
    (start_time : ℚ) (wall_clock₁ wall_clock₂ : List ℚ) :
    (run_simulation w vehicles cfg health sink_results g start_time wall_clock₁).map
        (fun r => (r.telemetry, r.anomalies))
      = (run_simulation w vehicles cfg health sink_results g start_time wall_clock₂).map
        (fun r => (r.telemetry, r.anomalies)) := by
  unfold run_simulation
  split_ifs <;> try rfl
  simp only [Except.map]
  rw [sim_loop_core, sim_loop_core]

lemma flush_check_log (b : ℕ) (c : SimCore) :
    (flush_check b c).telemetry_log = c.telemetry_log := by
  unfold flush_check
  split <;> rfl

lemma final_flush_log (c : SimCore) :
    (final_flush c).telemetry_log = c.telemetry_log := by
  unfold final_flush
  split <;> rfl

lemma process_vehicle_log (w : GridWorld) (step : ℤ) (c : SimCore)
    (v : VehicleAgent) (hstep : 0 < step) :
    ∃ rd : TelemetryReading, rd.timestamp = c.sim_time
      ∧ (process_vehicle w step c v).telemetry_log = c.telemetry_log ++ [rd] := by
  unfold process_vehicle
  dsimp only
  rw [tick_ok_eq (manage_vehicle_lifecycle w v c.gen).1 c.sim_time step
    (manage_vehicle_lifecycle w v c.gen).2 hstep]
  dsimp only
  split
  · exact ⟨_, rfl, rfl⟩
  · exact ⟨_, rfl, rfl⟩

lemma core_tick_log_single (w : GridWorld) (cfg : SimConfig) (c : SimCore)
    (v : VehicleAgent) (hstep : 0 < cfg.time_step_seconds) (hv : c.vehicles = [v]) :
    ∃ rd : TelemetryReading, rd.timestamp = c.sim_time
      ∧ (core_tick w cfg c).telemetry_log = c.telemetry_log ++ [rd] := by
  unfold core_tick
  rw [hv]
  dsimp only [List.foldl_cons, List.foldl_nil]
  obtain ⟨rd, h1, h2⟩ := process_vehicle_log w cfg.time_step_seconds
    { c with vehicles := [] } v hstep
  refine ⟨rd, h1, ?_⟩
  show (flush_check cfg.batch_size
    (process_vehicle w cfg.time_step_seconds { c with vehicles := [] } v)).telemetry_log = _
  rw [flush_check_log, h2]

lemma run_example_timestamps (t : ℚ) :
    ((run_simulation exampleWorld [exampleRefuelingVehicle] exampleConfig
        true [] [] t []).map (fun r => (r.telemetry, r.anomalies))).map
        (fun p => p.1.map (fun rd => rd.timestamp))
      = .ok [t] := by
  obtain ⟨rd, hts, hlog⟩ := core_tick_log_single exampleWorld exampleConfig
    { vehicles := [exampleRefuelingVehicle], gen := [], telemetry_buffer := [],
      telemetry_log := [], anomaly_log := [], sent_batches := [],
      anomalies_sent := [], sink_results := [], sim_time := t }
    exampleRefuelingVehicle (by norm_num [exampleConfig]) rfl
  unfold run_simulation
  rw [if_neg (by norm_num [exampleConfig]), if_neg (by norm_num [exampleConfig]),
    if_neg (by norm_num [exampleConfig]), if_neg (by simp), if_neg (by simp)]
  have hticks : ((exampleConfig.duration_minutes * 60)
      / exampleConfig.time_step_seconds).toNat = 1 := by
    norm_num [exampleConfig]
  dsimp only
  rw [hticks, show List.range 1 = [0] from rfl, List.foldl_cons, List.foldl_nil]
  simp only [Except.map]
  rw [final_flush_log, sim_tick_core]
  dsimp only
  rw [hlog]
  simp [hts]

/-- C9 counterexample: the claim as stated is false on the code — two runs
with the same configuration and the same draw sequence but different
`datetime.now()` start instants produce different telemetry logs, because the
readings' timestamps are derived from the run's wall-clock start. -/
theorem run_simulation_start_time_counterexample :
    ¬ ((run_simulation exampleWorld [exampleRefuelingVehicle] exampleConfig
          true [] [] 0 []).map (fun r => (r.telemetry, r.anomalies))
        = (run_simulation exampleWorld [exampleRefuelingVehicle] exampleConfig
          true [] [] 1 []).map (fun r => (r.telemetry, r.anomalies))) := by
  intro h
  have h2 := congrArg
    (Except.map (fun p : List TelemetryReading × List AnomalyEvent =>
      p.1.map (fun rd => rd.timestamp))) h
  rw [run_example_timestamps 0, run_example_timestamps 1] at h2
  simp at h2

end TelemetryApp
